import Mathlib

/-!
Verification of the tool-dispatch layer of `excel-mcp-server`
(`src/excel_mcp/server.py`): a shallow embedding of `get_excel_path`,
`list_tools`, `call_tool` and `read_resource`, with the backend spreadsheet
operations (the `excel_mcp` backend modules, an external collaborator per the
design document) represented as an opaque `Backend` record of fallible
functions. `call_tool` is instrumented to also return the list of backend
invocations it performed, so that claims of the form "the backend is not
invoked" or "the range passed to the backend is R" become statements about
that trace.
-/

namespace ExcelMCP

/-- A Python value as it can appear in a tool-call argument bag:
strings, booleans, integers, lists, and `None`. -/
inductive Val where
  | str (s : String)
  | bool (b : Bool)
  | int (n : Int)
  | list (xs : List Val)
  | none

/-- Python truthiness (`bool(v)`): empty strings, `False`, `0`, empty lists
and `None` are falsy; everything else is truthy. -/
def Val.truthy : Val → Bool
  | .str s => decide (s ≠ "")
  | .bool b => b
  | .int n => decide (n ≠ 0)
  | .list xs => !xs.isEmpty
  | .none => false

/-- A single-quote character, written via its code point. -/
def squote : String := String.singleton (Char.ofNat 39)

/-- Python `repr(v)`, approximated: strings are wrapped in single quotes
without escape processing (no claim evaluates it on a string needing
escapes). -/
def Val.pyRepr : Val → String
  | .str s => squote ++ s ++ squote
  | .bool true => "True"
  | .bool false => "False"
  | .int n => toString n
  | .list xs =>
      "[" ++ String.intercalate ", " (xs.attach.map (fun x => Val.pyRepr x.1)) ++ "]"
  | .none => "None"
decreasing_by
  have h := List.sizeOf_lt_of_mem x.2
  simp only [Val.list.sizeOf_spec]
  omega

/-- Python `str(v)`: identity on strings, `repr` inside containers. -/
def Val.pyStr : Val → String
  | .str s => s
  | v => v.pyRepr

/-- An argument bag: the JSON object delivered with a tool call.
First binding wins, like a Python `dict`. -/
abbrev Args := List (String × Val)

/-- `arguments.get(k, d)`. -/
def getArg (a : Args) (k : String) (d : Val) : Val :=
  match a.lookup k with
  | some v => v
  | _ => d

/-- Python `all([...])` over a list of values. -/
def pyAll (xs : List Val) : Bool := xs.all Val.truthy

/-- The closed set of backend domain exception classes declared in
`excel_mcp/exceptions.py`, plus `otherError` standing for any other Python
exception (`TypeError`, `KeyError`, ...). The domain classes do not subclass
each other, so an `except` clause catches exactly the listed kinds. -/
inductive ExcKind where
  | validationError
  | workbookError
  | sheetError
  | dataError
  | formattingError
  | calculationError
  | pivotError
  | chartError
  | otherError
deriving DecidableEq

/-- A raised Python exception: its class kind and its `str(e)` rendering. -/
structure PyExc where
  kind : ExcKind
  msg : String
deriving DecidableEq

/-- An `mcp.types.TextContent` item; the constant `type="text"` field is
omitted since every constructed item uses it. -/
structure TextContent where
  text : String
deriving DecidableEq

/-- `EXCEL_FILES_PATH = os.environ.get("EXCEL_FILES_PATH", "./excel_files")`,
modelled at its default value. -/
def EXCEL_FILES_PATH : String := "./excel_files"

/-- String prefix test over the character list (same meaning as
`String.startsWith`, stated in a form the kernel evaluates). -/
def strStartsWith (s p : String) : Bool := p.data.isPrefixOf s.data

/-- Whether a path string ends with the POSIX separator. -/
def endsWithSlash (s : String) : Bool := s.data.getLast? == some '/'

/-- `os.path.isabs` on a POSIX system: the path starts with a slash. -/
def isabs (s : String) : Bool := strStartsWith s "/"

/-- `os.path.join(a, b)` for two components on POSIX: `b` if absolute,
otherwise `a` and `b` separated by exactly one slash (note that joining with
an empty `b` yields `a` plus a trailing slash when `a` does not end in one). -/
def os_path_join (a b : String) : String :=
  if isabs b then b
  else if a = "" || endsWithSlash a then a ++ b
  else a ++ "/" ++ b

/-- `get_excel_path` from `server.py`: return an absolute filename unchanged,
otherwise join it under the configured Excel files directory. -/
def get_excel_path (filename : String) : String :=
  if isabs filename then filename
  else os_path_join EXCEL_FILES_PATH filename

/-- Extracting the raw filepath argument as a `str`: `os.path.isabs` raises
`TypeError` on a non-string, which we surface as an `otherError`. -/
def Val.asStrE : Val → Except PyExc String
  | .str s => Except.ok s
  | _ => Except.error ⟨.otherError, "argument should be a str or an os.PathLike object"⟩

/-- The dict returned by `validate_formula_in_cell_operation`, as observed by
`call_tool`: an optional `"error"` entry and an optional `"message"` entry
(each modelled by its `str` rendering). -/
structure VfRes where
  error : Option String
  message : Option String

/-- The keyword arguments `call_tool` passes to `format_range` beyond
filepath, sheet name and start cell, each taken from the argument bag. -/
structure FormatKwargs where
  end_cell : Val
  bold : Val
  italic : Val
  underline : Val
  font_size : Val
  font_color : Val
  bg_color : Val
  border_style : Val
  border_color : Val
  number_format : Val
  alignment : Val
  wrap_text : Val
  merge_cells : Val
  protection : Val
  conditional_format : Val

/-- One backend invocation performed by `call_tool`, recording the operation
and the exact arguments passed to it. -/
inductive BCall where
  | validateFormula (filepath : String) (sheet_name cell formula : Val)
  | applyFormula (filepath : String) (sheet_name cell formula : Val)
  | formatRange (filepath : String) (sheet_name start_cell : Val) (kwargs : FormatKwargs)
  | readExcelRange (filepath : String) (sheet_name start_cell end_cell preview_only : Val)
  | writeData (filepath : String) (sheet_name data start_cell write_headers : Val)
  | createWorkbook (filepath : String)
  | createSheet (filepath : String) (sheet_name : Val)
  | createChart (filepath : String) (sheet_name data_range chart_type target_cell title x_axis y_axis : Val)
  | createPivotTable (filepath : String) (sheet_name data_range rows values columns agg_func : Val)
  | copySheet (filepath : String) (source_sheet target_sheet : Val)
  | deleteSheet (filepath : String) (sheet_name : Val)
  | renameSheet (filepath : String) (old_name new_name : Val)
  | getWorkbookInfo (filepath : String) (include_ranges : Val)
  | mergeRange (filepath : String) (sheet_name start_cell end_cell : Val)
  | unmergeRange (filepath : String) (sheet_name start_cell end_cell : Val)
  | copyRangeOperation (filepath : String) (sheet_name source_start source_end target_start target_sheet : Val)
  | deleteRangeOperation (filepath : String) (sheet_name start_cell end_cell shift_direction : Val)
  | validateRange (filepath : String) (sheet_name range_str : Val)

/-- The opaque backend engine (the `excel_mcp` operation modules), per the
contract in spec section 6: each operation either returns a success payload —
for most operations a dict whose optional `"message"` entry is modelled as an
`Option String` — or raises an exception. Read rows and workbook info are
modelled by their `str` renderings, which is all `call_tool` uses of them. -/
structure Backend where
  validate_formula_impl : String → Val → Val → Val → Except PyExc VfRes
  apply_formula_impl : String → Val → Val → Val → Except PyExc (Option String)
  format_range_func : String → Val → Val → FormatKwargs → Except PyExc Unit
  read_excel_range : String → Val → Val → Val → Val → Except PyExc (List String)
  write_data : String → Val → Val → Val → Val → Except PyExc (Option String)
  create_workbook_impl : String → Except PyExc Unit
  create_worksheet_impl : String → Val → Except PyExc (Option String)
  create_chart_impl : String → Val → Val → Val → Val → Val → Val → Val → Except PyExc (Option String)
  create_pivot_table_impl : String → Val → Val → Val → Val → Val → Val → Except PyExc (Option String)
  copy_sheet : String → Val → Val → Except PyExc (Option String)
  delete_sheet : String → Val → Except PyExc (Option String)
  rename_sheet : String → Val → Val → Except PyExc (Option String)
  get_workbook_info : String → Val → Except PyExc String
  merge_range : String → Val → Val → Val → Except PyExc (Option String)
  unmerge_range : String → Val → Val → Val → Except PyExc (Option String)
  copy_range_operation : String → Val → Val → Val → Val → Val → Except PyExc (Option String)
  delete_range_operation : String → Val → Val → Val → Val → Except PyExc (Option String)
  validate_range_impl : String → Val → Val → Except PyExc (Option String)

/-- The outcome of one tool branch: either a text result or an exception that
escaped the branch, together with the trace of backend calls made. -/
abbrev HRes := Except PyExc (List TextContent) × List BCall

/-- A normal `return [TextContent(type="text", text=m)]`. -/
def ok1 (m : String) (tr : List BCall) : HRes := (Except.ok [⟨m⟩], tr)

/-- The fixed missing-required-parameters result (with empty trace: the
check precedes every backend call in each branch). -/
def missingRes : HRes := ok1 "Error: Missing required parameters" []

/-- A branch-local `except (...)` clause: an exception whose class is in the
caught list is rendered as an `"Error: " + str(e)` result, any other
exception escapes the branch. -/
def tryDomain (caught : List ExcKind) (e : PyExc) (tr : List BCall) : HRes :=
  if e.kind ∈ caught then ok1 ("Error: " ++ e.msg) tr
  else (Except.error e, tr)

/-- `result["message"]`: a missing key raises `KeyError` (`otherError`), with
Python rendering `str(KeyError("message")) = "'message'"`. -/
def getMsg (d : Option String) : Except PyExc String :=
  match d with
  | some m => Except.ok m
  | _ => Except.error ⟨.otherError, squote ++ "message" ++ squote⟩

/-- The `apply_formula` branch: validate the formula, report a validation
error dict as an error text, otherwise apply the formula and return its
message; `ValidationError` and `CalculationError` are caught locally. -/
def handle_apply_formula (B : Backend) (a : Args) : HRes :=
  match (getArg a "filepath" (.str "")).asStrE with
  | .error e => (Except.error e, [])
  | .ok fp =>
    let filepath := get_excel_path fp
    let sheet_name := getArg a "sheet_name" (.str "")
    let cell := getArg a "cell" (.str "")
    let formula := getArg a "formula" (.str "")
    if !(pyAll [.str filepath, sheet_name, cell, formula]) then missingRes
    else
      let c1 := BCall.validateFormula filepath sheet_name cell formula
      match B.validate_formula_impl filepath sheet_name cell formula with
      | .error e => tryDomain [.validationError, .calculationError] e [c1]
      | .ok v =>
        match v.error with
        | some err => ok1 ("Error: " ++ err) [c1]
        | _ =>
          let c2 := BCall.applyFormula filepath sheet_name cell formula
          match B.apply_formula_impl filepath sheet_name cell formula with
          | .error e => tryDomain [.validationError, .calculationError] e [c1, c2]
          | .ok d =>
            match getMsg d with
            | .error e => tryDomain [.validationError, .calculationError] e [c1, c2]
            | .ok m => ok1 m [c1, c2]

/-- The `validate_formula_syntax` branch. -/
def handle_formula_syntax_check (B : Backend) (a : Args) : HRes :=
  match (getArg a "filepath" (.str "")).asStrE with
  | .error e => (Except.error e, [])
  | .ok fp =>
    let filepath := get_excel_path fp
    let sheet_name := getArg a "sheet_name" (.str "")
    let cell := getArg a "cell" (.str "")
    let formula := getArg a "formula" (.str "")
    if !(pyAll [.str filepath, sheet_name, cell, formula]) then missingRes
    else
      let c := BCall.validateFormula filepath sheet_name cell formula
      match B.validate_formula_impl filepath sheet_name cell formula with
      | .error e => tryDomain [.validationError, .calculationError] e [c]
      | .ok v =>
        match getMsg v.message with
        | .error e => tryDomain [.validationError, .calculationError] e [c]
        | .ok m => ok1 m [c]

/-- The `format_range` branch: all formatting options are passed through from
the argument bag with the source's defaults; the result is a fixed
confirmation string. -/
def handle_format_range (B : Backend) (a : Args) : HRes :=
  match (getArg a "filepath" (.str "")).asStrE with
  | .error e => (Except.error e, [])
  | .ok fp =>
    let filepath := get_excel_path fp
    let sheet_name := getArg a "sheet_name" (.str "")
    let start_cell := getArg a "start_cell" (.str "")
    if !(pyAll [.str filepath, sheet_name, start_cell]) then missingRes
    else
      let kwargs : FormatKwargs :=
        { end_cell := getArg a "end_cell" .none
          bold := getArg a "bold" (.bool false)
          italic := getArg a "italic" (.bool false)
          underline := getArg a "underline" (.bool false)
          font_size := getArg a "font_size" .none
          font_color := getArg a "font_color" .none
          bg_color := getArg a "bg_color" .none
          border_style := getArg a "border_style" .none
          border_color := getArg a "border_color" .none
          number_format := getArg a "number_format" .none
          alignment := getArg a "alignment" .none
          wrap_text := getArg a "wrap_text" (.bool false)
          merge_cells := getArg a "merge_cells" (.bool false)
          protection := getArg a "protection" .none
          conditional_format := getArg a "conditional_format" .none }
      let c := BCall.formatRange filepath sheet_name start_cell kwargs
      match B.format_range_func filepath sheet_name start_cell kwargs with
      | .error e => tryDomain [.validationError, .formattingError] e [c]
      | .ok _ => ok1 "Range formatted successfully" [c]

/-- The `read_data_from_excel` branch: note its `except` clause catches every
exception and renders it with the prefix `"Error reading data: "`. -/
def handle_read_data_from_excel (B : Backend) (a : Args) : HRes :=
  match (getArg a "filepath" (.str "")).asStrE with
  | .error e => (Except.error e, [])
  | .ok fp =>
    let filepath := get_excel_path fp
    let sheet_name := getArg a "sheet_name" (.str "")
    let start_cell := getArg a "start_cell" (.str "A1")
    let end_cell := getArg a "end_cell" .none
    let preview_only := getArg a "preview_only" (.bool false)
    if !(pyAll [.str filepath, sheet_name]) then missingRes
    else
      let c := BCall.readExcelRange filepath sheet_name start_cell end_cell preview_only
      match B.read_excel_range filepath sheet_name start_cell end_cell preview_only with
      | .error e => ok1 ("Error reading data: " ++ e.msg) [c]
      | .ok result =>
        if result.isEmpty then ok1 "No data found in specified range" [c]
        else ok1 (String.intercalate "\n" result) [c]

/-- The `write_data_to_excel` branch. -/
def handle_write_data_to_excel (B : Backend) (a : Args) : HRes :=
  match (getArg a "filepath" (.str "")).asStrE with
  | .error e => (Except.error e, [])
  | .ok fp =>
    let filepath := get_excel_path fp
    let sheet_name := getArg a "sheet_name" (.str "")
    let data := getArg a "data" (.list [])
    let start_cell := getArg a "start_cell" (.str "A1")
    let write_headers := getArg a "write_headers" (.bool true)
    if !(pyAll [.str filepath, sheet_name, data]) then missingRes
    else
      let c := BCall.writeData filepath sheet_name data start_cell write_headers
      match B.write_data filepath sheet_name data start_cell write_headers with
      | .error e => tryDomain [.validationError, .dataError] e [c]
      | .ok d =>
        match getMsg d with
        | .error e => tryDomain [.validationError, .dataError] e [c]
        | .ok m => ok1 m [c]

/-- The `create_workbook` branch: its missing-parameter message differs from
the common one, and the success message is synthesized from the path. -/
def handle_create_workbook (B : Backend) (a : Args) : HRes :=
  match (getArg a "filepath" (.str "")).asStrE with
  | .error e => (Except.error e, [])
  | .ok fp =>
    let filepath := get_excel_path fp
    if !(Val.truthy (.str filepath)) then ok1 "Error: Missing filepath parameter" []
    else
      let c := BCall.createWorkbook filepath
      match B.create_workbook_impl filepath with
      | .error e => tryDomain [.workbookError] e [c]
      | .ok _ => ok1 ("Created workbook at " ++ filepath) [c]

/-- The `create_worksheet` branch. -/
def handle_create_worksheet (B : Backend) (a : Args) : HRes :=
  match (getArg a "filepath" (.str "")).asStrE with
  | .error e => (Except.error e, [])
  | .ok fp =>
    let filepath := get_excel_path fp
    let sheet_name := getArg a "sheet_name" (.str "")
    if !(pyAll [.str filepath, sheet_name]) then missingRes
    else
      let c := BCall.createSheet filepath sheet_name
      match B.create_worksheet_impl filepath sheet_name with
      | .error e => tryDomain [.validationError, .workbookError] e [c]
      | .ok d =>
        match getMsg d with
        | .error e => tryDomain [.validationError, .workbookError] e [c]
        | .ok m => ok1 m [c]

/-- The `create_chart` branch. -/
def handle_create_chart (B : Backend) (a : Args) : HRes :=
  match (getArg a "filepath" (.str "")).asStrE with
  | .error e => (Except.error e, [])
  | .ok fp =>
    let filepath := get_excel_path fp
    let sheet_name := getArg a "sheet_name" (.str "")
    let data_range := getArg a "data_range" (.str "")
    let chart_type := getArg a "chart_type" (.str "")
    let target_cell := getArg a "target_cell" (.str "")
    let title := getArg a "title" (.str "")
    let x_axis := getArg a "x_axis" (.str "")
    let y_axis := getArg a "y_axis" (.str "")
    if !(pyAll [.str filepath, sheet_name, data_range, chart_type, target_cell]) then missingRes
    else
      let c := BCall.createChart filepath sheet_name data_range chart_type target_cell title x_axis y_axis
      match B.create_chart_impl filepath sheet_name data_range chart_type target_cell title x_axis y_axis with
      | .error e => tryDomain [.validationError, .chartError] e [c]
      | .ok d =>
        match getMsg d with
        | .error e => tryDomain [.validationError, .chartError] e [c]
        | .ok m => ok1 m [c]

/-- The `create_pivot_table` branch: the `columns` argument is passed as
`columns or []`. -/
def handle_create_pivot_table (B : Backend) (a : Args) : HRes :=
  match (getArg a "filepath" (.str "")).asStrE with
  | .error e => (Except.error e, [])
  | .ok fp =>
    let filepath := get_excel_path fp
    let sheet_name := getArg a "sheet_name" (.str "")
    let data_range := getArg a "data_range" (.str "")
    let rows := getArg a "rows" (.list [])
    let values := getArg a "values" (.list [])
    let columns := getArg a "columns" (.list [])
    let agg_func := getArg a "agg_func" (.str "mean")
    if !(pyAll [.str filepath, sheet_name, data_range, rows, values]) then missingRes
    else
      let columnsArg := if columns.truthy then columns else .list []
      let c := BCall.createPivotTable filepath sheet_name data_range rows values columnsArg agg_func
      match B.create_pivot_table_impl filepath sheet_name data_range rows values columnsArg agg_func with
      | .error e => tryDomain [.validationError, .pivotError] e [c]
      | .ok d =>
        match getMsg d with
        | .error e => tryDomain [.validationError, .pivotError] e [c]
        | .ok m => ok1 m [c]

/-- The `copy_worksheet` branch. -/
def handle_copy_worksheet (B : Backend) (a : Args) : HRes :=
  match (getArg a "filepath" (.str "")).asStrE with
  | .error e => (Except.error e, [])
  | .ok fp =>
    let filepath := get_excel_path fp
    let source_sheet := getArg a "source_sheet" (.str "")
    let target_sheet := getArg a "target_sheet" (.str "")
    if !(pyAll [.str filepath, source_sheet, target_sheet]) then missingRes
    else
      let c := BCall.copySheet filepath source_sheet target_sheet
      match B.copy_sheet filepath source_sheet target_sheet with
      | .error e => tryDomain [.validationError, .sheetError] e [c]
      | .ok d =>
        match getMsg d with
        | .error e => tryDomain [.validationError, .sheetError] e [c]
        | .ok m => ok1 m [c]

/-- The `delete_worksheet` branch. -/
def handle_delete_worksheet (B : Backend) (a : Args) : HRes :=
  match (getArg a "filepath" (.str "")).asStrE with
  | .error e => (Except.error e, [])
  | .ok fp =>
    let filepath := get_excel_path fp
    let sheet_name := getArg a "sheet_name" (.str "")
    if !(pyAll [.str filepath, sheet_name]) then missingRes
    else
      let c := BCall.deleteSheet filepath sheet_name
      match B.delete_sheet filepath sheet_name with
      | .error e => tryDomain [.validationError, .sheetError] e [c]
      | .ok d =>
        match getMsg d with
        | .error e => tryDomain [.validationError, .sheetError] e [c]
        | .ok m => ok1 m [c]

/-- The `rename_worksheet` branch. -/
def handle_rename_worksheet (B : Backend) (a : Args) : HRes :=
  match (getArg a "filepath" (.str "")).asStrE with
  | .error e => (Except.error e, [])
  | .ok fp =>
    let filepath := get_excel_path fp
    let old_name := getArg a "old_name" (.str "")
    let new_name := getArg a "new_name" (.str "")
    if !(pyAll [.str filepath, old_name, new_name]) then missingRes
    else
      let c := BCall.renameSheet filepath old_name new_name
      match B.rename_sheet filepath old_name new_name with
      | .error e => tryDomain [.validationError, .sheetError] e [c]
      | .ok d =>
        match getMsg d with
        | .error e => tryDomain [.validationError, .sheetError] e [c]
        | .ok m => ok1 m [c]

/-- The `get_workbook_metadata` branch: renders `str(result)` and catches
only `WorkbookError`. -/
def handle_get_workbook_metadata (B : Backend) (a : Args) : HRes :=
  match (getArg a "filepath" (.str "")).asStrE with
  | .error e => (Except.error e, [])
  | .ok fp =>
    let filepath := get_excel_path fp
    let include_ranges := getArg a "include_ranges" (.bool false)
    if !(Val.truthy (.str filepath)) then ok1 "Error: Missing filepath parameter" []
    else
      let c := BCall.getWorkbookInfo filepath include_ranges
      match B.get_workbook_info filepath include_ranges with
      | .error e => tryDomain [.workbookError] e [c]
      | .ok s => ok1 s [c]

/-- The `merge_cells` branch. -/
def handle_merge_cells (B : Backend) (a : Args) : HRes :=
  match (getArg a "filepath" (.str "")).asStrE with
  | .error e => (Except.error e, [])
  | .ok fp =>
    let filepath := get_excel_path fp
    let sheet_name := getArg a "sheet_name" (.str "")
    let start_cell := getArg a "start_cell" (.str "")
    let end_cell := getArg a "end_cell" (.str "")
    if !(pyAll [.str filepath, sheet_name, start_cell, end_cell]) then missingRes
    else
      let c := BCall.mergeRange filepath sheet_name start_cell end_cell
      match B.merge_range filepath sheet_name start_cell end_cell with
      | .error e => tryDomain [.validationError, .sheetError] e [c]
      | .ok d =>
        match getMsg d with
        | .error e => tryDomain [.validationError, .sheetError] e [c]
        | .ok m => ok1 m [c]

/-- The `unmerge_cells` branch. -/
def handle_unmerge_cells (B : Backend) (a : Args) : HRes :=
  match (getArg a "filepath" (.str "")).asStrE with
  | .error e => (Except.error e, [])
  | .ok fp =>
    let filepath := get_excel_path fp
    let sheet_name := getArg a "sheet_name" (.str "")
    let start_cell := getArg a "start_cell" (.str "")
    let end_cell := getArg a "end_cell" (.str "")
    if !(pyAll [.str filepath, sheet_name, start_cell, end_cell]) then missingRes
    else
      let c := BCall.unmergeRange filepath sheet_name start_cell end_cell
      match B.unmerge_range filepath sheet_name start_cell end_cell with
      | .error e => tryDomain [.validationError, .sheetError] e [c]
      | .ok d =>
        match getMsg d with
        | .error e => tryDomain [.validationError, .sheetError] e [c]
        | .ok m => ok1 m [c]

/-- The `copy_range` branch. -/
def handle_copy_range (B : Backend) (a : Args) : HRes :=
  match (getArg a "filepath" (.str "")).asStrE with
  | .error e => (Except.error e, [])
  | .ok fp =>
    let filepath := get_excel_path fp
    let sheet_name := getArg a "sheet_name" (.str "")
    let source_start := getArg a "source_start" (.str "")
    let source_end := getArg a "source_end" (.str "")
    let target_start := getArg a "target_start" (.str "")
    let target_sheet := getArg a "target_sheet" .none
    if !(pyAll [.str filepath, sheet_name, source_start, source_end, target_start]) then missingRes
    else
      let c := BCall.copyRangeOperation filepath sheet_name source_start source_end target_start target_sheet
      match B.copy_range_operation filepath sheet_name source_start source_end target_start target_sheet with
      | .error e => tryDomain [.validationError, .sheetError] e [c]
      | .ok d =>
        match getMsg d with
        | .error e => tryDomain [.validationError, .sheetError] e [c]
        | .ok m => ok1 m [c]

/-- The `delete_range` branch: `shift_direction` defaults to `"up"`. -/
def handle_delete_range (B : Backend) (a : Args) : HRes :=
  match (getArg a "filepath" (.str "")).asStrE with
  | .error e => (Except.error e, [])
  | .ok fp =>
    let filepath := get_excel_path fp
    let sheet_name := getArg a "sheet_name" (.str "")
    let start_cell := getArg a "start_cell" (.str "")
    let end_cell := getArg a "end_cell" (.str "")
    let shift_direction := getArg a "shift_direction" (.str "up")
    if !(pyAll [.str filepath, sheet_name, start_cell, end_cell]) then missingRes
    else
      let c := BCall.deleteRangeOperation filepath sheet_name start_cell end_cell shift_direction
      match B.delete_range_operation filepath sheet_name start_cell end_cell shift_direction with
      | .error e => tryDomain [.validationError, .sheetError] e [c]
      | .ok d =>
        match getMsg d with
        | .error e => tryDomain [.validationError, .sheetError] e [c]
        | .ok m => ok1 m [c]

/-- The `validate_excel_range` branch: combines the start/end cell pair into
a single range token before delegating, and catches only `ValidationError`. -/
def handle_validate_excel_range (B : Backend) (a : Args) : HRes :=
  match (getArg a "filepath" (.str "")).asStrE with
  | .error e => (Except.error e, [])
  | .ok fp =>
    let filepath := get_excel_path fp
    let sheet_name := getArg a "sheet_name" (.str "")
    let start_cell := getArg a "start_cell" (.str "")
    let end_cell := getArg a "end_cell" .none
    if !(pyAll [.str filepath, sheet_name, start_cell]) then missingRes
    else
      let range_str : Val :=
        if !end_cell.truthy then start_cell
        else .str (start_cell.pyStr ++ ":" ++ end_cell.pyStr)
      let c := BCall.validateRange filepath sheet_name range_str
      match B.validate_range_impl filepath sheet_name range_str with
      | .error e => tryDomain [.validationError] e [c]
      | .ok d =>
        match getMsg d with
        | .error e => tryDomain [.validationError] e [c]
        | .ok m => ok1 m [c]

/-- The body of `call_tool`'s outer `try`: the `if/elif` dispatch on the tool
name, with the unknown-name fallback. -/
def dispatch (B : Backend) (name : String) (a : Args) : HRes :=
  if name = "apply_formula" then handle_apply_formula B a
    else if name = "validate_formula_syntax" then handle_formula_syntax_check B a
    else if name = "format_range" then handle_format_range B a
    else if name = "read_data_from_excel" then handle_read_data_from_excel B a
    else if name = "write_data_to_excel" then handle_write_data_to_excel B a
    else if name = "create_workbook" then handle_create_workbook B a
    else if name = "create_worksheet" then handle_create_worksheet B a
    else if name = "create_chart" then handle_create_chart B a
    else if name = "create_pivot_table" then handle_create_pivot_table B a
    else if name = "copy_worksheet" then handle_copy_worksheet B a
    else if name = "delete_worksheet" then handle_delete_worksheet B a
    else if name = "rename_worksheet" then handle_rename_worksheet B a
    else if name = "get_workbook_metadata" then handle_get_workbook_metadata B a
    else if name = "merge_cells" then handle_merge_cells B a
    else if name = "unmerge_cells" then handle_unmerge_cells B a
    else if name = "copy_range" then handle_copy_range B a
    else if name = "delete_range" then handle_delete_range B a
    else if name = "validate_excel_range" then handle_validate_excel_range B a
    else ok1 ("Unknown tool: " ++ name) []

/-- `call_tool` from `server.py`: the dispatch above wrapped in the outer
boundary that converts any exception escaping a branch into an
`"Error executing tool: " + str(e)` text result. The second component is the
instrumentation trace of backend invocations. -/
def call_tool (B : Backend) (name : String) (a : Args) : List TextContent × List BCall :=
  let d := dispatch B name a
  match d.1 with
  | .ok r => (r, d.2)
  | .error e => ([⟨"Error executing tool: " ++ e.msg⟩], d.2)

/-- A tool descriptor as advertised by `list_tools`: its name, description,
the declared property names (schema keys, in order) and the required ones. -/
structure ToolDescriptor where
  name : String
  description : String
  properties : List String
  required : List String
deriving DecidableEq

/-- The static tool catalog returned by `list_tools` in `server.py`. -/
def list_tools : List ToolDescriptor :=
  [ { name := "apply_formula"
      description := "Apply Excel formula to cell"
      properties := ["filepath", "sheet_name", "cell", "formula"]
      required := ["filepath", "sheet_name", "cell", "formula"] }
  , { name := "validate_formula_syntax"
      description := "Validate Excel formula syntax without applying it"
      properties := ["filepath", "sheet_name", "cell", "formula"]
      required := ["filepath", "sheet_name", "cell", "formula"] }
  , { name := "format_range"
      description := "Apply formatting to a range of cells"
      properties := ["filepath", "sheet_name", "start_cell", "end_cell", "bold", "italic", "font_size", "font_color", "bg_color"]
      required := ["filepath", "sheet_name", "start_cell"] }
  , { name := "read_data_from_excel"
      description := "Read data from Excel worksheet"
      properties := ["filepath", "sheet_name", "start_cell", "end_cell", "preview_only"]
      required := ["filepath", "sheet_name"] }
  , { name := "write_data_to_excel"
      description := "Write data to Excel worksheet"
      properties := ["filepath", "sheet_name", "data", "start_cell", "write_headers"]
      required := ["filepath", "sheet_name", "data"] }
  , { name := "create_workbook"
      description := "Create new Excel workbook"
      properties := ["filepath"]
      required := ["filepath"] }
  , { name := "create_worksheet"
      description := "Create new worksheet in workbook"
      properties := ["filepath", "sheet_name"]
      required := ["filepath", "sheet_name"] }
  , { name := "create_chart"
      description := "Create chart in worksheet"
      properties := ["filepath", "sheet_name", "data_range", "chart_type", "target_cell", "title", "x_axis", "y_axis"]
      required := ["filepath", "sheet_name", "data_range", "chart_type", "target_cell"] }
  , { name := "create_pivot_table"
      description := "Create pivot table in worksheet"
      properties := ["filepath", "sheet_name", "data_range", "rows", "values", "columns", "agg_func"]
      required := ["filepath", "sheet_name", "data_range", "rows", "values"] }
  , { name := "copy_worksheet"
      description := "Copy worksheet within workbook"
      properties := ["filepath", "source_sheet", "target_sheet"]
      required := ["filepath", "source_sheet", "target_sheet"] }
  , { name := "delete_worksheet"
      description := "Delete worksheet from workbook"
      properties := ["filepath", "sheet_name"]
      required := ["filepath", "sheet_name"] }
  , { name := "rename_worksheet"
      description := "Rename worksheet in workbook"
      properties := ["filepath", "old_name", "new_name"]
      required := ["filepath", "old_name", "new_name"] }
  , { name := "get_workbook_metadata"
      description := "Get metadata about workbook including sheets, ranges, etc."
      properties := ["filepath", "include_ranges"]
      required := ["filepath"] }
  , { name := "merge_cells"
      description := "Merge a range of cells"
      properties := ["filepath", "sheet_name", "start_cell", "end_cell"]
      required := ["filepath", "sheet_name", "start_cell", "end_cell"] }
  , { name := "unmerge_cells"
      description := "Unmerge a range of cells"
      properties := ["filepath", "sheet_name", "start_cell", "end_cell"]
      required := ["filepath", "sheet_name", "start_cell", "end_cell"] }
  , { name := "copy_range"
      description := "Copy a range of cells to another location"
      properties := ["filepath", "sheet_name", "source_start", "source_end", "target_start", "target_sheet"]
      required := ["filepath", "sheet_name", "source_start", "source_end", "target_start"] }
  , { name := "delete_range"
      description := "Delete a range of cells and shift remaining cells"
      properties := ["filepath", "sheet_name", "start_cell", "end_cell", "shift_direction"]
      required := ["filepath", "sheet_name", "start_cell", "end_cell"] }
  , { name := "validate_excel_range"
      description := "Validate if a range exists and is properly formatted"
      properties := ["filepath", "sheet_name", "start_cell", "end_cell"]
      required := ["filepath", "sheet_name", "start_cell"] } ]

/-- The hexadecimal value of a character, if any. -/
def hexVal (c : Char) : Option Nat :=
  if 48 ≤ c.toNat ∧ c.toNat ≤ 57 then some (c.toNat - 48)
  else if 65 ≤ c.toNat ∧ c.toNat ≤ 70 then some (c.toNat - 55)
  else if 97 ≤ c.toNat ∧ c.toNat ≤ 102 then some (c.toNat - 87)
  else Option.none

/-- Percent-decoding of a character list: a model of `urllib.parse.unquote`
faithful for single-byte (ASCII/Latin-1) sequences; invalid percent escapes
are left as-is, as in the library. -/
def unquoteChars : List Char → List Char
  | '%' :: a :: b :: rest =>
      match hexVal a, hexVal b with
      | some x, some y => Char.ofNat (16 * x + y) :: unquoteChars rest
      | _, _ => '%' :: a :: b :: unquoteChars rest
  | c :: rest => c :: unquoteChars rest
  | [] => []

/-- `urllib.parse.unquote` on a string (single-byte model). -/
def unquote (s : String) : String := String.mk (unquoteChars s.data)

/-- The outcome of the bounded metadata fetch in `read_resource`: either the
15-second `asyncio.wait_for` bound elapsed first, or the worker finished with
`get_workbook_info`'s outcome (its `str` rendering, or a raised exception). -/
inductive FetchOutcome where
  | timedOut
  | finished (r : Except PyExc String)

/-- The environment `read_resource` consults: `os.path.exists` and the
bounded `get_workbook_info(file_path, include_ranges=True)` fetch, both
external effects modelled as oracles. -/
structure ResourceEnv where
  path_exists : String → Bool
  fetch_info : String → FetchOutcome

/-- `read_resource` from `server.py`: scheme check (a bad scheme raises
`ValueError`, caught by the function's own outer clause), percent-decode,
path resolution, existence check, then the bounded metadata fetch whose
timeout yields the fixed timeout message. The worker function `get_info`
catches its own exceptions and returns an `"Error reading workbook: "` text
instead. -/
def read_resource (env : ResourceEnv) (uri : String) : String :=
  if !strStartsWith uri "excel://" then "Error reading resource: Invalid URI scheme: " ++ uri
  else
    let file := unquote (String.mk (uri.data.drop 8))
    let file_path := get_excel_path file
    if !env.path_exists file_path then "Error: File not found: " ++ file
    else
      match env.fetch_info file_path with
      | .timedOut => "Error: Operation timed out while reading Excel file"
      | .finished (.ok s) => s
      | .finished (.error e) => "Error reading workbook: " ++ e.msg

/-- A backend in which every operation succeeds with the message "ok". -/
def okBackend : Backend where
  validate_formula_impl := fun _ _ _ _ => Except.ok ⟨Option.none, some "ok"⟩
  apply_formula_impl := fun _ _ _ _ => Except.ok (some "ok")
  format_range_func := fun _ _ _ _ => Except.ok ()
  read_excel_range := fun _ _ _ _ _ => Except.ok ["row"]
  write_data := fun _ _ _ _ _ => Except.ok (some "ok")
  create_workbook_impl := fun _ => Except.ok ()
  create_worksheet_impl := fun _ _ => Except.ok (some "ok")
  create_chart_impl := fun _ _ _ _ _ _ _ _ => Except.ok (some "ok")
  create_pivot_table_impl := fun _ _ _ _ _ _ _ => Except.ok (some "ok")
  copy_sheet := fun _ _ _ => Except.ok (some "ok")
  delete_sheet := fun _ _ => Except.ok (some "ok")
  rename_sheet := fun _ _ _ => Except.ok (some "ok")
  get_workbook_info := fun _ _ => Except.ok "ok"
  merge_range := fun _ _ _ _ => Except.ok (some "ok")
  unmerge_range := fun _ _ _ _ => Except.ok (some "ok")
  copy_range_operation := fun _ _ _ _ _ _ => Except.ok (some "ok")
  delete_range_operation := fun _ _ _ _ _ => Except.ok (some "ok")
  validate_range_impl := fun _ _ _ => Except.ok (some "ok")

/-- A backend in which every operation raises the exception `e`. -/
def throwingBackend (e : PyExc) : Backend where
  validate_formula_impl := fun _ _ _ _ => Except.error e
  apply_formula_impl := fun _ _ _ _ => Except.error e
  format_range_func := fun _ _ _ _ => Except.error e
  read_excel_range := fun _ _ _ _ _ => Except.error e
  write_data := fun _ _ _ _ _ => Except.error e
  create_workbook_impl := fun _ => Except.error e
  create_worksheet_impl := fun _ _ => Except.error e
  create_chart_impl := fun _ _ _ _ _ _ _ _ => Except.error e
  create_pivot_table_impl := fun _ _ _ _ _ _ _ => Except.error e
  copy_sheet := fun _ _ _ => Except.error e
  delete_sheet := fun _ _ => Except.error e
  rename_sheet := fun _ _ _ => Except.error e
  get_workbook_info := fun _ _ => Except.error e
  merge_range := fun _ _ _ _ => Except.error e
  unmerge_range := fun _ _ _ _ => Except.error e
  copy_range_operation := fun _ _ _ _ _ _ => Except.error e
  delete_range_operation := fun _ _ _ _ _ => Except.error e
  validate_range_impl := fun _ _ _ => Except.error e

/-- One valid argument bag per tool: every required parameter populated with
a non-empty value of its declared type. -/
def validArgs : String → Args
  | "apply_formula" =>
      [("filepath", .str "wb.xlsx"), ("sheet_name", .str "Sheet1"), ("cell", .str "A1"), ("formula", .str "=SUM(A1:A10)")]
  | "validate_formula_syntax" =>
      [("filepath", .str "wb.xlsx"), ("sheet_name", .str "Sheet1"), ("cell", .str "A1"), ("formula", .str "=SUM(A1:A10)")]
  | "format_range" =>
      [("filepath", .str "wb.xlsx"), ("sheet_name", .str "Sheet1"), ("start_cell", .str "A1")]
  | "read_data_from_excel" =>
      [("filepath", .str "wb.xlsx"), ("sheet_name", .str "Sheet1")]
  | "write_data_to_excel" =>
      [("filepath", .str "wb.xlsx"), ("sheet_name", .str "Sheet1"), ("data", .list [.str "x"])]
  | "create_workbook" =>
      [("filepath", .str "wb.xlsx")]
  | "create_worksheet" =>
      [("filepath", .str "wb.xlsx"), ("sheet_name", .str "Sheet1")]
  | "create_chart" =>
      [("filepath", .str "wb.xlsx"), ("sheet_name", .str "Sheet1"), ("data_range", .str "A1:B2"), ("chart_type", .str "line"), ("target_cell", .str "D1")]
  | "create_pivot_table" =>
      [("filepath", .str "wb.xlsx"), ("sheet_name", .str "Sheet1"), ("data_range", .str "A1:B2"), ("rows", .list [.str "a"]), ("values", .list [.str "b"])]
  | "copy_worksheet" =>
      [("filepath", .str "wb.xlsx"), ("source_sheet", .str "Sheet1"), ("target_sheet", .str "Sheet2")]
  | "delete_worksheet" =>
      [("filepath", .str "wb.xlsx"), ("sheet_name", .str "Sheet1")]
  | "rename_worksheet" =>
      [("filepath", .str "wb.xlsx"), ("old_name", .str "Sheet1"), ("new_name", .str "Sheet2")]
  | "get_workbook_metadata" =>
      [("filepath", .str "wb.xlsx")]
  | "merge_cells" =>
      [("filepath", .str "wb.xlsx"), ("sheet_name", .str "Sheet1"), ("start_cell", .str "A1"), ("end_cell", .str "B2")]
  | "unmerge_cells" =>
      [("filepath", .str "wb.xlsx"), ("sheet_name", .str "Sheet1"), ("start_cell", .str "A1"), ("end_cell", .str "B2")]
  | "copy_range" =>
      [("filepath", .str "wb.xlsx"), ("sheet_name", .str "Sheet1"), ("source_start", .str "A1"), ("source_end", .str "B2"), ("target_start", .str "D1")]
  | "delete_range" =>
      [("filepath", .str "wb.xlsx"), ("sheet_name", .str "Sheet1"), ("start_cell", .str "A1"), ("end_cell", .str "B2")]
  | "validate_excel_range" =>
      [("filepath", .str "wb.xlsx"), ("sheet_name", .str "Sheet1"), ("start_cell", .str "A1")]
  | _ => []

/-- The exception classes caught at each tool's backend call site (the tuple
in its `except` clause); `read_data_from_excel` catches bare `Exception`,
i.e. every kind. -/
def caughtKinds : String → List ExcKind
  | "apply_formula" => [.validationError, .calculationError]
  | "validate_formula_syntax" => [.validationError, .calculationError]
  | "format_range" => [.validationError, .formattingError]
  | "read_data_from_excel" =>
      [.validationError, .workbookError, .sheetError, .dataError, .formattingError,
       .calculationError, .pivotError, .chartError, .otherError]
  | "write_data_to_excel" => [.validationError, .dataError]
  | "create_workbook" => [.workbookError]
  | "create_worksheet" => [.validationError, .workbookError]
  | "create_chart" => [.validationError, .chartError]
  | "create_pivot_table" => [.validationError, .pivotError]
  | "copy_worksheet" => [.validationError, .sheetError]
  | "delete_worksheet" => [.validationError, .sheetError]
  | "rename_worksheet" => [.validationError, .sheetError]
  | "get_workbook_metadata" => [.workbookError]
  | "merge_cells" => [.validationError, .sheetError]
  | "unmerge_cells" => [.validationError, .sheetError]
  | "copy_range" => [.validationError, .sheetError]
  | "delete_range" => [.validationError, .sheetError]
  | "validate_excel_range" => [.validationError]
  | _ => []

/-- A branch outcome whose successful results are singleton lists. -/
def okLen (h : HRes) : Prop := ∀ r, h.1 = Except.ok r → r.length = 1

theorem okLen_ok1 (m : String) (tr : List BCall) : okLen (ok1 m tr) := by
  intro r h
  simp [ok1] at h
  subst h
  rfl

theorem okLen_err (e : PyExc) (tr : List BCall) : okLen (Except.error e, tr) := by
  intro r h
  simp at h

theorem okLen_missing : okLen missingRes := okLen_ok1 _ _

theorem okLen_tryDomain (ks : List ExcKind) (e : PyExc) (tr : List BCall) :
    okLen (tryDomain ks e tr) := by
  unfold tryDomain
  split
  · exact okLen_ok1 _ _
  · exact okLen_err _ _

theorem okLen_handle_apply_formula (B : Backend) (a : Args) :
    okLen (handle_apply_formula B a) := by
  unfold handle_apply_formula
  dsimp only
  repeat' split
  all_goals first
    | exact okLen_err _ _
    | exact okLen_missing
    | exact okLen_tryDomain _ _ _
    | exact okLen_ok1 _ _

theorem okLen_handle_formula_syntax_check (B : Backend) (a : Args) :
    okLen (handle_formula_syntax_check B a) := by
  unfold handle_formula_syntax_check
  dsimp only
  repeat' split
  all_goals first
    | exact okLen_err _ _
    | exact okLen_missing
    | exact okLen_tryDomain _ _ _
    | exact okLen_ok1 _ _

theorem okLen_handle_format_range (B : Backend) (a : Args) :
    okLen (handle_format_range B a) := by
  unfold handle_format_range
  dsimp only
  repeat' split
  all_goals first
    | exact okLen_err _ _
    | exact okLen_missing
    | exact okLen_tryDomain _ _ _
    | exact okLen_ok1 _ _

theorem okLen_handle_read_data_from_excel (B : Backend) (a : Args) :
    okLen (handle_read_data_from_excel B a) := by
  unfold handle_read_data_from_excel
  dsimp only
  repeat' split
  all_goals first
    | exact okLen_err _ _
    | exact okLen_missing
    | exact okLen_tryDomain _ _ _
    | exact okLen_ok1 _ _

theorem okLen_handle_write_data_to_excel (B : Backend) (a : Args) :
    okLen (handle_write_data_to_excel B a) := by
  unfold handle_write_data_to_excel
  dsimp only
  repeat' split
  all_goals first
    | exact okLen_err _ _
    | exact okLen_missing
    | exact okLen_tryDomain _ _ _
    | exact okLen_ok1 _ _

theorem okLen_handle_create_workbook (B : Backend) (a : Args) :
    okLen (handle_create_workbook B a) := by
  unfold handle_create_workbook
  dsimp only
  repeat' split
  all_goals first
    | exact okLen_err _ _
    | exact okLen_missing
    | exact okLen_tryDomain _ _ _
    | exact okLen_ok1 _ _

theorem okLen_handle_create_worksheet (B : Backend) (a : Args) :
    okLen (handle_create_worksheet B a) := by
  unfold handle_create_worksheet
  dsimp only
  repeat' split
  all_goals first
    | exact okLen_err _ _
    | exact okLen_missing
    | exact okLen_tryDomain _ _ _
    | exact okLen_ok1 _ _

theorem okLen_handle_create_chart (B : Backend) (a : Args) :
    okLen (handle_create_chart B a) := by
  unfold handle_create_chart
  dsimp only
  repeat' split
  all_goals first
    | exact okLen_err _ _
    | exact okLen_missing
    | exact okLen_tryDomain _ _ _
    | exact okLen_ok1 _ _

theorem okLen_handle_create_pivot_table (B : Backend) (a : Args) :
    okLen (handle_create_pivot_table B a) := by
  unfold handle_create_pivot_table
  dsimp only
  repeat' split
  all_goals first
    | exact okLen_err _ _
    | exact okLen_missing
    | exact okLen_tryDomain _ _ _
    | exact okLen_ok1 _ _

theorem okLen_handle_copy_worksheet (B : Backend) (a : Args) :
    okLen (handle_copy_worksheet B a) := by
  unfold handle_copy_worksheet
  dsimp only
  repeat' split
  all_goals first
    | exact okLen_err _ _
    | exact okLen_missing
    | exact okLen_tryDomain _ _ _
    | exact okLen_ok1 _ _

theorem okLen_handle_delete_worksheet (B : Backend) (a : Args) :
    okLen (handle_delete_worksheet B a) := by
  unfold handle_delete_worksheet
  dsimp only
  repeat' split
  all_goals first
    | exact okLen_err _ _
    | exact okLen_missing
    | exact okLen_tryDomain _ _ _
    | exact okLen_ok1 _ _

theorem okLen_handle_rename_worksheet (B : Backend) (a : Args) :
    okLen (handle_rename_worksheet B a) := by
  unfold handle_rename_worksheet
  dsimp only
  repeat' split
  all_goals first
    | exact okLen_err _ _
    | exact okLen_missing
    | exact okLen_tryDomain _ _ _
    | exact okLen_ok1 _ _

theorem okLen_handle_get_workbook_metadata (B : Backend) (a : Args) :
    okLen (handle_get_workbook_metadata B a) := by
  unfold handle_get_workbook_metadata
  dsimp only
  repeat' split
  all_goals first
    | exact okLen_err _ _
    | exact okLen_missing
    | exact okLen_tryDomain _ _ _
    | exact okLen_ok1 _ _

theorem okLen_handle_merge_cells (B : Backend) (a : Args) :
    okLen (handle_merge_cells B a) := by
  unfold handle_merge_cells
  dsimp only
  repeat' split
  all_goals first
    | exact okLen_err _ _
    | exact okLen_missing
    | exact okLen_tryDomain _ _ _
    | exact okLen_ok1 _ _

theorem okLen_handle_unmerge_cells (B : Backend) (a : Args) :
    okLen (handle_unmerge_cells B a) := by
  unfold handle_unmerge_cells
  dsimp only
  repeat' split
  all_goals first
    | exact okLen_err _ _
    | exact okLen_missing
    | exact okLen_tryDomain _ _ _
    | exact okLen_ok1 _ _

theorem okLen_handle_copy_range (B : Backend) (a : Args) :
    okLen (handle_copy_range B a) := by
  unfold handle_copy_range
  dsimp only
  repeat' split
  all_goals first
    | exact okLen_err _ _
    | exact okLen_missing
    | exact okLen_tryDomain _ _ _
    | exact okLen_ok1 _ _

theorem okLen_handle_delete_range (B : Backend) (a : Args) :
    okLen (handle_delete_range B a) := by
  unfold handle_delete_range
  dsimp only
  repeat' split
  all_goals first
    | exact okLen_err _ _
    | exact okLen_missing
    | exact okLen_tryDomain _ _ _
    | exact okLen_ok1 _ _

theorem okLen_handle_validate_excel_range (B : Backend) (a : Args) :
    okLen (handle_validate_excel_range B a) := by
  unfold handle_validate_excel_range
  dsimp only
  repeat' split
  all_goals first
    | exact okLen_err _ _
    | exact okLen_missing
    | exact okLen_tryDomain _ _ _
    | exact okLen_ok1 _ _

theorem dispatch_apply_formula (B : Backend) (a : Args) :
    dispatch B "apply_formula" a = handle_apply_formula B a := by
  simp [dispatch]

theorem dispatch_formula_syntax_check (B : Backend) (a : Args) :
    dispatch B "validate_formula_syntax" a = handle_formula_syntax_check B a := by
  simp [dispatch]

theorem dispatch_format_range (B : Backend) (a : Args) :
    dispatch B "format_range" a = handle_format_range B a := by
  simp [dispatch]

theorem dispatch_read_data_from_excel (B : Backend) (a : Args) :
    dispatch B "read_data_from_excel" a = handle_read_data_from_excel B a := by
  simp [dispatch]

theorem dispatch_write_data_to_excel (B : Backend) (a : Args) :
    dispatch B "write_data_to_excel" a = handle_write_data_to_excel B a := by
  simp [dispatch]

theorem dispatch_create_workbook (B : Backend) (a : Args) :
    dispatch B "create_workbook" a = handle_create_workbook B a := by
  simp [dispatch]

theorem dispatch_create_worksheet (B : Backend) (a : Args) :
    dispatch B "create_worksheet" a = handle_create_worksheet B a := by
  simp [dispatch]

theorem dispatch_create_chart (B : Backend) (a : Args) :
    dispatch B "create_chart" a = handle_create_chart B a := by
  simp [dispatch]

theorem dispatch_create_pivot_table (B : Backend) (a : Args) :
    dispatch B "create_pivot_table" a = handle_create_pivot_table B a := by
  simp [dispatch]

theorem dispatch_copy_worksheet (B : Backend) (a : Args) :
    dispatch B "copy_worksheet" a = handle_copy_worksheet B a := by
  simp [dispatch]

theorem dispatch_delete_worksheet (B : Backend) (a : Args) :
    dispatch B "delete_worksheet" a = handle_delete_worksheet B a := by
  simp [dispatch]

theorem dispatch_rename_worksheet (B : Backend) (a : Args) :
    dispatch B "rename_worksheet" a = handle_rename_worksheet B a := by
  simp [dispatch]

theorem dispatch_get_workbook_metadata (B : Backend) (a : Args) :
    dispatch B "get_workbook_metadata" a = handle_get_workbook_metadata B a := by
  simp [dispatch]

theorem dispatch_merge_cells (B : Backend) (a : Args) :
    dispatch B "merge_cells" a = handle_merge_cells B a := by
  simp [dispatch]

theorem dispatch_unmerge_cells (B : Backend) (a : Args) :
    dispatch B "unmerge_cells" a = handle_unmerge_cells B a := by
  simp [dispatch]

theorem dispatch_copy_range (B : Backend) (a : Args) :
    dispatch B "copy_range" a = handle_copy_range B a := by
  simp [dispatch]

theorem dispatch_delete_range (B : Backend) (a : Args) :
    dispatch B "delete_range" a = handle_delete_range B a := by
  simp [dispatch]

theorem dispatch_validate_excel_range (B : Backend) (a : Args) :
    dispatch B "validate_excel_range" a = handle_validate_excel_range B a := by
  simp [dispatch]

theorem dispatch_unknown (B : Backend) (name : String) (a : Args)
    (h : name ∉ list_tools.map ToolDescriptor.name) :
    dispatch B name a = ok1 ("Unknown tool: " ++ name) [] := by
  simp only [list_tools, List.map_cons, List.map_nil, List.mem_cons, List.not_mem_nil,
    or_false, not_or] at h
  obtain ⟨h1, h2, h3, h4, h5, h6, h7, h8, h9, h10, h11, h12, h13, h14, h15, h16, h17, h18⟩ := h
  simp [dispatch, h1, h2, h3, h4, h5, h6, h7, h8, h9, h10, h11, h12, h13, h14, h15, h16, h17, h18]

theorem okLen_dispatch (B : Backend) (name : String) (a : Args) :
    okLen (dispatch B name a) := by
  rcases eq_or_ne name "apply_formula" with rfl | h1
  · rw [dispatch_apply_formula]
    exact okLen_handle_apply_formula B a
  rcases eq_or_ne name "validate_formula_syntax" with rfl | h2
  · rw [dispatch_formula_syntax_check]
    exact okLen_handle_formula_syntax_check B a
  rcases eq_or_ne name "format_range" with rfl | h3
  · rw [dispatch_format_range]
    exact okLen_handle_format_range B a
  rcases eq_or_ne name "read_data_from_excel" with rfl | h4
  · rw [dispatch_read_data_from_excel]
    exact okLen_handle_read_data_from_excel B a
  rcases eq_or_ne name "write_data_to_excel" with rfl | h5
  · rw [dispatch_write_data_to_excel]
    exact okLen_handle_write_data_to_excel B a
  rcases eq_or_ne name "create_workbook" with rfl | h6
  · rw [dispatch_create_workbook]
    exact okLen_handle_create_workbook B a
  rcases eq_or_ne name "create_worksheet" with rfl | h7
  · rw [dispatch_create_worksheet]
    exact okLen_handle_create_worksheet B a
  rcases eq_or_ne name "create_chart" with rfl | h8
  · rw [dispatch_create_chart]
    exact okLen_handle_create_chart B a
  rcases eq_or_ne name "create_pivot_table" with rfl | h9
  · rw [dispatch_create_pivot_table]
    exact okLen_handle_create_pivot_table B a
  rcases eq_or_ne name "copy_worksheet" with rfl | h10
  · rw [dispatch_copy_worksheet]
    exact okLen_handle_copy_worksheet B a
  rcases eq_or_ne name "delete_worksheet" with rfl | h11
  · rw [dispatch_delete_worksheet]
    exact okLen_handle_delete_worksheet B a
  rcases eq_or_ne name "rename_worksheet" with rfl | h12
  · rw [dispatch_rename_worksheet]
    exact okLen_handle_rename_worksheet B a
  rcases eq_or_ne name "get_workbook_metadata" with rfl | h13
  · rw [dispatch_get_workbook_metadata]
    exact okLen_handle_get_workbook_metadata B a
  rcases eq_or_ne name "merge_cells" with rfl | h14
  · rw [dispatch_merge_cells]
    exact okLen_handle_merge_cells B a
  rcases eq_or_ne name "unmerge_cells" with rfl | h15
  · rw [dispatch_unmerge_cells]
    exact okLen_handle_unmerge_cells B a
  rcases eq_or_ne name "copy_range" with rfl | h16
  · rw [dispatch_copy_range]
    exact okLen_handle_copy_range B a
  rcases eq_or_ne name "delete_range" with rfl | h17
  · rw [dispatch_delete_range]
    exact okLen_handle_delete_range B a
  rcases eq_or_ne name "validate_excel_range" with rfl | h18
  · rw [dispatch_validate_excel_range]
    exact okLen_handle_validate_excel_range B a
  have e : dispatch B name a = ok1 ("Unknown tool: " ++ name) [] := by
    simp [dispatch, h1, h2, h3, h4, h5, h6, h7, h8, h9, h10, h11, h12, h13, h14, h15, h16, h17, h18]
  rw [e]
  exact okLen_ok1 _ _

/-- Rewriting `call_tool` by a computed dispatch outcome: success case. -/
theorem call_tool_ok (B : Backend) (n : String) (a : Args) (r : List TextContent)
    (tr : List BCall) (h : dispatch B n a = (Except.ok r, tr)) :
    call_tool B n a = (r, tr) := by
  unfold call_tool
  rw [h]

/-- Rewriting `call_tool` by a computed dispatch outcome: escaped-exception
case, rendered at the outer boundary. -/
theorem call_tool_err (B : Backend) (n : String) (a : Args) (e : PyExc)
    (tr : List BCall) (h : dispatch B n a = (Except.error e, tr)) :
    call_tool B n a = ([⟨"Error executing tool: " ++ e.msg⟩], tr) := by
  unfold call_tool
  rw [h]

/-- C10: for every backend, tool name and argument bag, `call_tool` returns
a list containing exactly one text content item — never an empty list, never
more than one item, and never an escaped exception (it is a total function
into text results). -/
theorem claim10_single_text_item (B : Backend) (name : String) (a : Args) :
    (call_tool B name a).1.length = 1 := by
  unfold call_tool
  dsimp only
  rcases hd : (dispatch B name a).1 with e | r
  · rfl
  · exact okLen_dispatch B name a r hd

/-- C3: for every tool name not among the 18 advertised by the catalog,
`call_tool` returns the text `"Unknown tool: " ++ name` (with no backend
operation invoked) and does not raise. -/
theorem claim3_unknown_tool (B : Backend) (name : String) (a : Args)
    (h : name ∉ list_tools.map ToolDescriptor.name) :
    call_tool B name a = ([⟨"Unknown tool: " ++ name⟩], []) :=
  call_tool_ok B name a _ _ (dispatch_unknown B name a h)

/-- Witness for C3 at the concrete unknown name "frobnicate". -/
theorem claim3_unknown_tool_witness :
    call_tool okBackend "frobnicate" [] = ([⟨"Unknown tool: frobnicate"⟩], []) := by
  rw [claim3_unknown_tool okBackend "frobnicate" [] (by decide)]
  rfl

/-- C5: the path resolver returns an absolute input unchanged, and joins any
non-absolute input under the configured root directory as `<root>/<f>`. -/
theorem claim5_path_resolver :
    (∀ p : String, isabs p = true → get_excel_path p = p) ∧
    (∀ f : String, isabs f = false → get_excel_path f = EXCEL_FILES_PATH ++ "/" ++ f) := by
  constructor
  · intro p hp
    simp [get_excel_path, hp]
  · intro f hf
    simp [get_excel_path, os_path_join, hf, EXCEL_FILES_PATH, endsWithSlash]

/-- Witness for C5 at the spec's example inputs. -/
theorem claim5_path_resolver_witness :
    get_excel_path "/abs/path/x.xlsx" = "/abs/path/x.xlsx" ∧
    get_excel_path "x.xlsx" = "./excel_files/x.xlsx" := by
  constructor
  · exact claim5_path_resolver.1 "/abs/path/x.xlsx" (by decide)
  · rw [claim5_path_resolver.2 "x.xlsx" (by decide)]
    decide

/-- C4: every tool name advertised by the catalog has a dispatch branch —
calling it with all required parameters populated by valid values (and a
successful backend) never reaches the unknown-tool fallback. -/
theorem claim4_catalog_dispatch_lockstep (n : String)
    (h : n ∈ list_tools.map ToolDescriptor.name) :
    (call_tool okBackend n (validArgs n)).1 ≠ [⟨"Unknown tool: " ++ n⟩] := by
  simp only [list_tools, List.map_cons, List.map_nil] at h
  fin_cases h <;> decide

/-- Witness for C4 at the first advertised tool name. -/
theorem claim4_catalog_dispatch_lockstep_witness :
    (call_tool okBackend "apply_formula" (validArgs "apply_formula")).1 ≠
      [⟨"Unknown tool: " ++ "apply_formula"⟩] :=
  claim4_catalog_dispatch_lockstep "apply_formula" (by decide)

/-- C2 fails as stated: at the `read_data_from_excel` call site the code
catches bare `Exception` — a kind that is not a domain error of that
operation (`otherError`, e.g. a `TypeError`) is rendered locally with the
prefix "Error reading data: " instead of propagating to the outer boundary's
"Error executing tool: " rendering. -/
theorem claim2_counterexample :
    (call_tool (throwingBackend ⟨.otherError, "boom"⟩) "read_data_from_excel"
      (validArgs "read_data_from_excel")).1 = [⟨"Error reading data: boom"⟩] ∧
    [TextContent.mk "Error reading data: boom"] ≠ [TextContent.mk "Error executing tool: boom"] := by
  exact ⟨by decide, by decide⟩

set_option maxHeartbeats 4000000 in
/-- C2 amended: for 17 of the 18 tools, the call site catches exactly the
domain error kinds relevant to that operation (an exception of a caught kind
is rendered as "Error: " + message, any other kind escapes to the outer
boundary and is rendered as "Error executing tool: " + message); the
exception is `read_data_from_excel`, whose call site catches every exception
kind and renders it with the distinct prefix "Error reading data: ". -/
theorem claim2_catch_sets_amended (e : PyExc) :
    ((call_tool (throwingBackend e) "apply_formula" (validArgs "apply_formula")).1 =
      [⟨if e.kind ∈ caughtKinds "apply_formula" then "Error: " ++ e.msg
        else "Error executing tool: " ++ e.msg⟩]) ∧
    ((call_tool (throwingBackend e) "validate_formula_syntax" (validArgs "validate_formula_syntax")).1 =
      [⟨if e.kind ∈ caughtKinds "validate_formula_syntax" then "Error: " ++ e.msg
        else "Error executing tool: " ++ e.msg⟩]) ∧
    ((call_tool (throwingBackend e) "format_range" (validArgs "format_range")).1 =
      [⟨if e.kind ∈ caughtKinds "format_range" then "Error: " ++ e.msg
        else "Error executing tool: " ++ e.msg⟩]) ∧
    ((call_tool (throwingBackend e) "read_data_from_excel" (validArgs "read_data_from_excel")).1 =
      [⟨"Error reading data: " ++ e.msg⟩]) ∧
    ((call_tool (throwingBackend e) "write_data_to_excel" (validArgs "write_data_to_excel")).1 =
      [⟨if e.kind ∈ caughtKinds "write_data_to_excel" then "Error: " ++ e.msg
        else "Error executing tool: " ++ e.msg⟩]) ∧
    ((call_tool (throwingBackend e) "create_workbook" (validArgs "create_workbook")).1 =
      [⟨if e.kind ∈ caughtKinds "create_workbook" then "Error: " ++ e.msg
        else "Error executing tool: " ++ e.msg⟩]) ∧
    ((call_tool (throwingBackend e) "create_worksheet" (validArgs "create_worksheet")).1 =
      [⟨if e.kind ∈ caughtKinds "create_worksheet" then "Error: " ++ e.msg
        else "Error executing tool: " ++ e.msg⟩]) ∧
    ((call_tool (throwingBackend e) "create_chart" (validArgs "create_chart")).1 =
      [⟨if e.kind ∈ caughtKinds "create_chart" then "Error: " ++ e.msg
        else "Error executing tool: " ++ e.msg⟩]) ∧
    ((call_tool (throwingBackend e) "create_pivot_table" (validArgs "create_pivot_table")).1 =
      [⟨if e.kind ∈ caughtKinds "create_pivot_table" then "Error: " ++ e.msg
        else "Error executing tool: " ++ e.msg⟩]) ∧
    ((call_tool (throwingBackend e) "copy_worksheet" (validArgs "copy_worksheet")).1 =
      [⟨if e.kind ∈ caughtKinds "copy_worksheet" then "Error: " ++ e.msg
        else "Error executing tool: " ++ e.msg⟩]) ∧
    ((call_tool (throwingBackend e) "delete_worksheet" (validArgs "delete_worksheet")).1 =
      [⟨if e.kind ∈ caughtKinds "delete_worksheet" then "Error: " ++ e.msg
        else "Error executing tool: " ++ e.msg⟩]) ∧
    ((call_tool (throwingBackend e) "rename_worksheet" (validArgs "rename_worksheet")).1 =
      [⟨if e.kind ∈ caughtKinds "rename_worksheet" then "Error: " ++ e.msg
        else "Error executing tool: " ++ e.msg⟩]) ∧
    ((call_tool (throwingBackend e) "get_workbook_metadata" (validArgs "get_workbook_metadata")).1 =
      [⟨if e.kind ∈ caughtKinds "get_workbook_metadata" then "Error: " ++ e.msg
        else "Error executing tool: " ++ e.msg⟩]) ∧
    ((call_tool (throwingBackend e) "merge_cells" (validArgs "merge_cells")).1 =
      [⟨if e.kind ∈ caughtKinds "merge_cells" then "Error: " ++ e.msg
        else "Error executing tool: " ++ e.msg⟩]) ∧
    ((call_tool (throwingBackend e) "unmerge_cells" (validArgs "unmerge_cells")).1 =
      [⟨if e.kind ∈ caughtKinds "unmerge_cells" then "Error: " ++ e.msg
        else "Error executing tool: " ++ e.msg⟩]) ∧
    ((call_tool (throwingBackend e) "copy_range" (validArgs "copy_range")).1 =
      [⟨if e.kind ∈ caughtKinds "copy_range" then "Error: " ++ e.msg
        else "Error executing tool: " ++ e.msg⟩]) ∧
    ((call_tool (throwingBackend e) "delete_range" (validArgs "delete_range")).1 =
      [⟨if e.kind ∈ caughtKinds "delete_range" then "Error: " ++ e.msg
        else "Error executing tool: " ++ e.msg⟩]) ∧
    ((call_tool (throwingBackend e) "validate_excel_range" (validArgs "validate_excel_range")).1 =
      [⟨if e.kind ∈ caughtKinds "validate_excel_range" then "Error: " ++ e.msg
        else "Error executing tool: " ++ e.msg⟩]) := by
  obtain ⟨k, m⟩ := e
  cases k <;>
    refine ⟨?_, ?_, ?_, ?_, ?_, ?_, ?_, ?_, ?_, ?_, ?_, ?_, ?_, ?_, ?_, ?_, ?_, ?_⟩ <;>
    simp [call_tool, dispatch, handle_apply_formula, handle_formula_syntax_check,
      handle_format_range, handle_read_data_from_excel, handle_write_data_to_excel,
      handle_create_workbook, handle_create_worksheet, handle_create_chart,
      handle_create_pivot_table, handle_copy_worksheet, handle_delete_worksheet,
      handle_rename_worksheet, handle_get_workbook_metadata, handle_merge_cells,
      handle_unmerge_cells, handle_copy_range, handle_delete_range,
      handle_validate_excel_range, validArgs, getArg, Val.asStrE, get_excel_path, isabs,
      strStartsWith, os_path_join, endsWithSlash, EXCEL_FILES_PATH, Val.truthy, pyAll,
      throwingBackend, tryDomain, ok1, missingRes, caughtKinds, List.lookup]

theorem handle_apply_formula_missing (B : Backend) (a : Args) (s : String)
    (hs : getArg a "filepath" (.str "") = .str s)
    (h : (getArg a "sheet_name" (.str "")).truthy = false ∨
         (getArg a "cell" (.str "")).truthy = false ∨
         (getArg a "formula" (.str "")).truthy = false) :
    handle_apply_formula B a = missingRes := by
  unfold handle_apply_formula
  rw [hs]
  have hp : pyAll [.str (get_excel_path s), getArg a "sheet_name" (.str ""),
      getArg a "cell" (.str ""), getArg a "formula" (.str "")] = false := by
    rcases h with h | h | h <;> simp [pyAll, h]
  simp [Val.asStrE, hp]

theorem handle_formula_syntax_check_missing (B : Backend) (a : Args) (s : String)
    (hs : getArg a "filepath" (.str "") = .str s)
    (h : (getArg a "sheet_name" (.str "")).truthy = false ∨
         (getArg a "cell" (.str "")).truthy = false ∨
         (getArg a "formula" (.str "")).truthy = false) :
    handle_formula_syntax_check B a = missingRes := by
  unfold handle_formula_syntax_check
  rw [hs]
  have hp : pyAll [.str (get_excel_path s), getArg a "sheet_name" (.str ""),
      getArg a "cell" (.str ""), getArg a "formula" (.str "")] = false := by
    rcases h with h | h | h <;> simp [pyAll, h]
  simp [Val.asStrE, hp]

theorem handle_format_range_missing (B : Backend) (a : Args) (s : String)
    (hs : getArg a "filepath" (.str "") = .str s)
    (h : (getArg a "sheet_name" (.str "")).truthy = false ∨
         (getArg a "start_cell" (.str "")).truthy = false) :
    handle_format_range B a = missingRes := by
  unfold handle_format_range
  rw [hs]
  have hp : pyAll [.str (get_excel_path s), getArg a "sheet_name" (.str ""),
      getArg a "start_cell" (.str "")] = false := by
    rcases h with h | h <;> simp [pyAll, h]
  simp [Val.asStrE, hp]

theorem handle_read_data_from_excel_missing (B : Backend) (a : Args) (s : String)
    (hs : getArg a "filepath" (.str "") = .str s)
    (h : (getArg a "sheet_name" (.str "")).truthy = false) :
    handle_read_data_from_excel B a = missingRes := by
  unfold handle_read_data_from_excel
  rw [hs]
  have hp : pyAll [.str (get_excel_path s), getArg a "sheet_name" (.str "")] = false := by
    simp [pyAll, h]
  simp [Val.asStrE, hp]

theorem handle_write_data_to_excel_missing (B : Backend) (a : Args) (s : String)
    (hs : getArg a "filepath" (.str "") = .str s)
    (h : (getArg a "sheet_name" (.str "")).truthy = false ∨
         (getArg a "data" (.list [])).truthy = false) :
    handle_write_data_to_excel B a = missingRes := by
  unfold handle_write_data_to_excel
  rw [hs]
  have hp : pyAll [.str (get_excel_path s), getArg a "sheet_name" (.str ""),
      getArg a "data" (.list [])] = false := by
    rcases h with h | h <;> simp [pyAll, h]
  simp [Val.asStrE, hp]

theorem handle_create_worksheet_missing (B : Backend) (a : Args) (s : String)
    (hs : getArg a "filepath" (.str "") = .str s)
    (h : (getArg a "sheet_name" (.str "")).truthy = false) :
    handle_create_worksheet B a = missingRes := by
  unfold handle_create_worksheet
  rw [hs]
  have hp : pyAll [.str (get_excel_path s), getArg a "sheet_name" (.str "")] = false := by
    simp [pyAll, h]
  simp [Val.asStrE, hp]

theorem handle_create_chart_missing (B : Backend) (a : Args) (s : String)
    (hs : getArg a "filepath" (.str "") = .str s)
    (h : (getArg a "sheet_name" (.str "")).truthy = false ∨
         (getArg a "data_range" (.str "")).truthy = false ∨
         (getArg a "chart_type" (.str "")).truthy = false ∨
         (getArg a "target_cell" (.str "")).truthy = false) :
    handle_create_chart B a = missingRes := by
  unfold handle_create_chart
  rw [hs]
  have hp : pyAll [.str (get_excel_path s), getArg a "sheet_name" (.str ""),
      getArg a "data_range" (.str ""), getArg a "chart_type" (.str ""),
      getArg a "target_cell" (.str "")] = false := by
    rcases h with h | h | h | h <;> simp [pyAll, h]
  simp [Val.asStrE, hp]

theorem handle_create_pivot_table_missing (B : Backend) (a : Args) (s : String)
    (hs : getArg a "filepath" (.str "") = .str s)
    (h : (getArg a "sheet_name" (.str "")).truthy = false ∨
         (getArg a "data_range" (.str "")).truthy = false ∨
         (getArg a "rows" (.list [])).truthy = false ∨
         (getArg a "values" (.list [])).truthy = false) :
    handle_create_pivot_table B a = missingRes := by
  unfold handle_create_pivot_table
  rw [hs]
  have hp : pyAll [.str (get_excel_path s), getArg a "sheet_name" (.str ""),
      getArg a "data_range" (.str ""), getArg a "rows" (.list []),
      getArg a "values" (.list [])] = false := by
    rcases h with h | h | h | h <;> simp [pyAll, h]
  simp [Val.asStrE, hp]

theorem handle_copy_worksheet_missing (B : Backend) (a : Args) (s : String)
    (hs : getArg a "filepath" (.str "") = .str s)
    (h : (getArg a "source_sheet" (.str "")).truthy = false ∨
         (getArg a "target_sheet" (.str "")).truthy = false) :
    handle_copy_worksheet B a = missingRes := by
  unfold handle_copy_worksheet
  rw [hs]
  have hp : pyAll [.str (get_excel_path s), getArg a "source_sheet" (.str ""),
      getArg a "target_sheet" (.str "")] = false := by
    rcases h with h | h <;> simp [pyAll, h]
  simp [Val.asStrE, hp]

theorem handle_delete_worksheet_missing (B : Backend) (a : Args) (s : String)
    (hs : getArg a "filepath" (.str "") = .str s)
    (h : (getArg a "sheet_name" (.str "")).truthy = false) :
    handle_delete_worksheet B a = missingRes := by
  unfold handle_delete_worksheet
  rw [hs]
  have hp : pyAll [.str (get_excel_path s), getArg a "sheet_name" (.str "")] = false := by
    simp [pyAll, h]
  simp [Val.asStrE, hp]

theorem handle_rename_worksheet_missing (B : Backend) (a : Args) (s : String)
    (hs : getArg a "filepath" (.str "") = .str s)
    (h : (getArg a "old_name" (.str "")).truthy = false ∨
         (getArg a "new_name" (.str "")).truthy = false) :
    handle_rename_worksheet B a = missingRes := by
  unfold handle_rename_worksheet
  rw [hs]
  have hp : pyAll [.str (get_excel_path s), getArg a "old_name" (.str ""),
      getArg a "new_name" (.str "")] = false := by
    rcases h with h | h <;> simp [pyAll, h]
  simp [Val.asStrE, hp]

theorem handle_merge_cells_missing (B : Backend) (a : Args) (s : String)
    (hs : getArg a "filepath" (.str "") = .str s)
    (h : (getArg a "sheet_name" (.str "")).truthy = false ∨
         (getArg a "start_cell" (.str "")).truthy = false ∨
         (getArg a "end_cell" (.str "")).truthy = false) :
    handle_merge_cells B a = missingRes := by
  unfold handle_merge_cells
  rw [hs]
  have hp : pyAll [.str (get_excel_path s), getArg a "sheet_name" (.str ""),
      getArg a "start_cell" (.str ""), getArg a "end_cell" (.str "")] = false := by
    rcases h with h | h | h <;> simp [pyAll, h]
  simp [Val.asStrE, hp]

theorem handle_unmerge_cells_missing (B : Backend) (a : Args) (s : String)
    (hs : getArg a "filepath" (.str "") = .str s)
    (h : (getArg a "sheet_name" (.str "")).truthy = false ∨
         (getArg a "start_cell" (.str "")).truthy = false ∨
         (getArg a "end_cell" (.str "")).truthy = false) :
    handle_unmerge_cells B a = missingRes := by
  unfold handle_unmerge_cells
  rw [hs]
  have hp : pyAll [.str (get_excel_path s), getArg a "sheet_name" (.str ""),
      getArg a "start_cell" (.str ""), getArg a "end_cell" (.str "")] = false := by
    rcases h with h | h | h <;> simp [pyAll, h]
  simp [Val.asStrE, hp]

theorem handle_copy_range_missing (B : Backend) (a : Args) (s : String)
    (hs : getArg a "filepath" (.str "") = .str s)
    (h : (getArg a "sheet_name" (.str "")).truthy = false ∨
         (getArg a "source_start" (.str "")).truthy = false ∨
         (getArg a "source_end" (.str "")).truthy = false ∨
         (getArg a "target_start" (.str "")).truthy = false) :
    handle_copy_range B a = missingRes := by
  unfold handle_copy_range
  rw [hs]
  have hp : pyAll [.str (get_excel_path s), getArg a "sheet_name" (.str ""),
      getArg a "source_start" (.str ""), getArg a "source_end" (.str ""),
      getArg a "target_start" (.str "")] = false := by
    rcases h with h | h | h | h <;> simp [pyAll, h]
  simp [Val.asStrE, hp]

theorem handle_delete_range_missing (B : Backend) (a : Args) (s : String)
    (hs : getArg a "filepath" (.str "") = .str s)
    (h : (getArg a "sheet_name" (.str "")).truthy = false ∨
         (getArg a "start_cell" (.str "")).truthy = false ∨
         (getArg a "end_cell" (.str "")).truthy = false) :
    handle_delete_range B a = missingRes := by
  unfold handle_delete_range
  rw [hs]
  have hp : pyAll [.str (get_excel_path s), getArg a "sheet_name" (.str ""),
      getArg a "start_cell" (.str ""), getArg a "end_cell" (.str "")] = false := by
    rcases h with h | h | h <;> simp [pyAll, h]
  simp [Val.asStrE, hp]

theorem handle_validate_excel_range_missing (B : Backend) (a : Args) (s : String)
    (hs : getArg a "filepath" (.str "") = .str s)
    (h : (getArg a "sheet_name" (.str "")).truthy = false ∨
         (getArg a "start_cell" (.str "")).truthy = false) :
    handle_validate_excel_range B a = missingRes := by
  unfold handle_validate_excel_range
  rw [hs]
  have hp : pyAll [.str (get_excel_path s), getArg a "sheet_name" (.str ""),
      getArg a "start_cell" (.str "")] = false := by
    rcases h with h | h <;> simp [pyAll, h]
  simp [Val.asStrE, hp]

/-- C1 fails as stated: `filepath` is resolved through `get_excel_path`
before the emptiness check, and resolving the empty string yields the truthy
path `"./excel_files/"` — so calling `create_workbook` with `filepath`
omitted passes the check and the backend is invoked (`create_workbook_impl`
appears in the trace), instead of returning the missing-parameters error. -/
theorem claim1_counterexample :
    (call_tool okBackend "create_workbook" []).1 = [⟨"Created workbook at ./excel_files/"⟩] ∧
    (call_tool okBackend "create_workbook" []).2 = [BCall.createWorkbook "./excel_files/"] ∧
    [TextContent.mk "Created workbook at ./excel_files/"] ≠
      [TextContent.mk "Error: Missing required parameters"] := by
  refine ⟨by decide, ?_, by decide⟩
  rfl

/-- C1 amended: for every tool, if some required parameter other than
`filepath` is omitted or empty (falsy) in the argument bag — and the
`filepath` entry is a string — `call_tool` returns the text
"Error: Missing required parameters" and no backend operation is invoked
(empty trace). The amendment drops the claim's `filepath` case: the resolved
filepath is always a non-empty string, so an omitted or empty `filepath` is
not caught by the check (see the counterexample); the two tools whose only
required parameter is `filepath` (`create_workbook`, `get_workbook_metadata`)
therefore have no conjunct here. -/
theorem claim1_missing_params_amended :
    (∀ (B : Backend) (a : Args) (s : String),
      getArg a "filepath" (.str "") = .str s →
      ((getArg a "sheet_name" (.str "")).truthy = false ∨
       (getArg a "cell" (.str "")).truthy = false ∨
       (getArg a "formula" (.str "")).truthy = false) →
      call_tool B "apply_formula" a = ([⟨"Error: Missing required parameters"⟩], [])) ∧
    (∀ (B : Backend) (a : Args) (s : String),
      getArg a "filepath" (.str "") = .str s →
      ((getArg a "sheet_name" (.str "")).truthy = false ∨
       (getArg a "cell" (.str "")).truthy = false ∨
       (getArg a "formula" (.str "")).truthy = false) →
      call_tool B "validate_formula_syntax" a = ([⟨"Error: Missing required parameters"⟩], [])) ∧
    (∀ (B : Backend) (a : Args) (s : String),
      getArg a "filepath" (.str "") = .str s →
      ((getArg a "sheet_name" (.str "")).truthy = false ∨
       (getArg a "start_cell" (.str "")).truthy = false) →
      call_tool B "format_range" a = ([⟨"Error: Missing required parameters"⟩], [])) ∧
    (∀ (B : Backend) (a : Args) (s : String),
      getArg a "filepath" (.str "") = .str s →
      (getArg a "sheet_name" (.str "")).truthy = false →
      call_tool B "read_data_from_excel" a = ([⟨"Error: Missing required parameters"⟩], [])) ∧
    (∀ (B : Backend) (a : Args) (s : String),
      getArg a "filepath" (.str "") = .str s →
      ((getArg a "sheet_name" (.str "")).truthy = false ∨
       (getArg a "data" (.list [])).truthy = false) →
      call_tool B "write_data_to_excel" a = ([⟨"Error: Missing required parameters"⟩], [])) ∧
    (∀ (B : Backend) (a : Args) (s : String),
      getArg a "filepath" (.str "") = .str s →
      (getArg a "sheet_name" (.str "")).truthy = false →
      call_tool B "create_worksheet" a = ([⟨"Error: Missing required parameters"⟩], [])) ∧
    (∀ (B : Backend) (a : Args) (s : String),
      getArg a "filepath" (.str "") = .str s →
      ((getArg a "sheet_name" (.str "")).truthy = false ∨
       (getArg a "data_range" (.str "")).truthy = false ∨
       (getArg a "chart_type" (.str "")).truthy = false ∨
       (getArg a "target_cell" (.str "")).truthy = false) →
      call_tool B "create_chart" a = ([⟨"Error: Missing required parameters"⟩], [])) ∧
    (∀ (B : Backend) (a : Args) (s : String),
      getArg a "filepath" (.str "") = .str s →
      ((getArg a "sheet_name" (.str "")).truthy = false ∨
       (getArg a "data_range" (.str "")).truthy = false ∨
       (getArg a "rows" (.list [])).truthy = false ∨
       (getArg a "values" (.list [])).truthy = false) →
      call_tool B "create_pivot_table" a = ([⟨"Error: Missing required parameters"⟩], [])) ∧
    (∀ (B : Backend) (a : Args) (s : String),
      getArg a "filepath" (.str "") = .str s →
      ((getArg a "source_sheet" (.str "")).truthy = false ∨
       (getArg a "target_sheet" (.str "")).truthy = false) →
      call_tool B "copy_worksheet" a = ([⟨"Error: Missing required parameters"⟩], [])) ∧
    (∀ (B : Backend) (a : Args) (s : String),
      getArg a "filepath" (.str "") = .str s →
      (getArg a "sheet_name" (.str "")).truthy = false →
      call_tool B "delete_worksheet" a = ([⟨"Error: Missing required parameters"⟩], [])) ∧
    (∀ (B : Backend) (a : Args) (s : String),
      getArg a "filepath" (.str "") = .str s →
      ((getArg a "old_name" (.str "")).truthy = false ∨
       (getArg a "new_name" (.str "")).truthy = false) →
      call_tool B "rename_worksheet" a = ([⟨"Error: Missing required parameters"⟩], [])) ∧
    (∀ (B : Backend) (a : Args) (s : String),
      getArg a "filepath" (.str "") = .str s →
      ((getArg a "sheet_name" (.str "")).truthy = false ∨
       (getArg a "start_cell" (.str "")).truthy = false ∨
       (getArg a "end_cell" (.str "")).truthy = false) →
      call_tool B "merge_cells" a = ([⟨"Error: Missing required parameters"⟩], [])) ∧
    (∀ (B : Backend) (a : Args) (s : String),
      getArg a "filepath" (.str "") = .str s →
      ((getArg a "sheet_name" (.str "")).truthy = false ∨
       (getArg a "start_cell" (.str "")).truthy = false ∨
       (getArg a "end_cell" (.str "")).truthy = false) →
      call_tool B "unmerge_cells" a = ([⟨"Error: Missing required parameters"⟩], [])) ∧
    (∀ (B : Backend) (a : Args) (s : String),
      getArg a "filepath" (.str "") = .str s →
      ((getArg a "sheet_name" (.str "")).truthy = false ∨
       (getArg a "source_start" (.str "")).truthy = false ∨
       (getArg a "source_end" (.str "")).truthy = false ∨
       (getArg a "target_start" (.str "")).truthy = false) →
      call_tool B "copy_range" a = ([⟨"Error: Missing required parameters"⟩], [])) ∧
    (∀ (B : Backend) (a : Args) (s : String),
      getArg a "filepath" (.str "") = .str s →
      ((getArg a "sheet_name" (.str "")).truthy = false ∨
       (getArg a "start_cell" (.str "")).truthy = false ∨
       (getArg a "end_cell" (.str "")).truthy = false) →
      call_tool B "delete_range" a = ([⟨"Error: Missing required parameters"⟩], [])) ∧
    (∀ (B : Backend) (a : Args) (s : String),
      getArg a "filepath" (.str "") = .str s →
      ((getArg a "sheet_name" (.str "")).truthy = false ∨
       (getArg a "start_cell" (.str "")).truthy = false) →
      call_tool B "validate_excel_range" a = ([⟨"Error: Missing required parameters"⟩], [])) := by
  refine ⟨?_, ?_, ?_, ?_, ?_, ?_, ?_, ?_, ?_, ?_, ?_, ?_, ?_, ?_, ?_, ?_⟩
  · intro B a s hs h
    exact call_tool_ok B _ a _ _
      (by rw [dispatch_apply_formula]; exact handle_apply_formula_missing B a s hs h)
  · intro B a s hs h
    exact call_tool_ok B _ a _ _
      (by rw [dispatch_formula_syntax_check]; exact handle_formula_syntax_check_missing B a s hs h)
  · intro B a s hs h
    exact call_tool_ok B _ a _ _
      (by rw [dispatch_format_range]; exact handle_format_range_missing B a s hs h)
  · intro B a s hs h
    exact call_tool_ok B _ a _ _
      (by rw [dispatch_read_data_from_excel]; exact handle_read_data_from_excel_missing B a s hs h)
  · intro B a s hs h
    exact call_tool_ok B _ a _ _
      (by rw [dispatch_write_data_to_excel]; exact handle_write_data_to_excel_missing B a s hs h)
  · intro B a s hs h
    exact call_tool_ok B _ a _ _
      (by rw [dispatch_create_worksheet]; exact handle_create_worksheet_missing B a s hs h)
  · intro B a s hs h
    exact call_tool_ok B _ a _ _
      (by rw [dispatch_create_chart]; exact handle_create_chart_missing B a s hs h)
  · intro B a s hs h
    exact call_tool_ok B _ a _ _
      (by rw [dispatch_create_pivot_table]; exact handle_create_pivot_table_missing B a s hs h)
  · intro B a s hs h
    exact call_tool_ok B _ a _ _
      (by rw [dispatch_copy_worksheet]; exact handle_copy_worksheet_missing B a s hs h)
  · intro B a s hs h
    exact call_tool_ok B _ a _ _
      (by rw [dispatch_delete_worksheet]; exact handle_delete_worksheet_missing B a s hs h)
  · intro B a s hs h
    exact call_tool_ok B _ a _ _
      (by rw [dispatch_rename_worksheet]; exact handle_rename_worksheet_missing B a s hs h)
  · intro B a s hs h
    exact call_tool_ok B _ a _ _
      (by rw [dispatch_merge_cells]; exact handle_merge_cells_missing B a s hs h)
  · intro B a s hs h
    exact call_tool_ok B _ a _ _
      (by rw [dispatch_unmerge_cells]; exact handle_unmerge_cells_missing B a s hs h)
  · intro B a s hs h
    exact call_tool_ok B _ a _ _
      (by rw [dispatch_copy_range]; exact handle_copy_range_missing B a s hs h)
  · intro B a s hs h
    exact call_tool_ok B _ a _ _
      (by rw [dispatch_delete_range]; exact handle_delete_range_missing B a s hs h)
  · intro B a s hs h
    exact call_tool_ok B _ a _ _
      (by rw [dispatch_validate_excel_range]; exact handle_validate_excel_range_missing B a s hs h)

/-- Witness for the amended C1: `apply_formula` on the empty bag (filepath
defaults to the empty string, sheet_name is absent hence falsy). -/
theorem claim1_missing_params_witness :
    call_tool okBackend "apply_formula" [] = ([⟨"Error: Missing required parameters"⟩], []) :=
  claim1_missing_params_amended.1 okBackend [] "" rfl (Or.inl rfl)

theorem get_excel_path_ne_empty (s : String) : get_excel_path s ≠ "" := by
  unfold get_excel_path
  split
  · intro hc
    subst hc
    simp [isabs, strStartsWith, List.isPrefixOf] at *
  · unfold os_path_join
    split
    · intro hc
      subst hc
      simp_all [isabs, strStartsWith, List.isPrefixOf]
    · split
      · simp [EXCEL_FILES_PATH, endsWithSlash] at *
      · intro hc
        have := congrArg String.length hc
        simp [String.length_append, EXCEL_FILES_PATH] at this
        exact absurd this.1 (by decide)

theorem get_excel_path_truthy (s : String) : (Val.str (get_excel_path s)).truthy = true := by
  simp [Val.truthy, get_excel_path_ne_empty s]

/-- The backend-invocation trace is unaffected by the outer boundary. -/
theorem call_tool_trace (B : Backend) (n : String) (a : Args) :
    (call_tool B n a).2 = (dispatch B n a).2 := by
  unfold call_tool
  dsimp only
  rcases hd : (dispatch B n a).1 with e | r <;> rfl

theorem getArg_of_lookup_none (a : Args) (k : String) (d : Val)
    (h : a.lookup k = Option.none) : getArg a k d = d := by
  unfold getArg
  rw [h]

/-- C6: for `validate_excel_range`, when both `start_cell` and `end_cell`
are supplied and non-empty the backend receives the range token
`start_cell ++ ":" ++ end_cell`; when only `start_cell` is supplied the
backend receives `start_cell` alone. -/
theorem claim6_range_normalization :
    (∀ (B : Backend) (a : Args) (s sc ec : String),
      getArg a "filepath" (.str "") = .str s →
      (getArg a "sheet_name" (.str "")).truthy = true →
      getArg a "start_cell" (.str "") = .str sc → sc ≠ "" →
      getArg a "end_cell" Val.none = .str ec → ec ≠ "" →
      (call_tool B "validate_excel_range" a).2 =
        [BCall.validateRange (get_excel_path s) (getArg a "sheet_name" (.str ""))
          (.str (sc ++ ":" ++ ec))]) ∧
    (∀ (B : Backend) (a : Args) (s sc : String),
      getArg a "filepath" (.str "") = .str s →
      (getArg a "sheet_name" (.str "")).truthy = true →
      getArg a "start_cell" (.str "") = .str sc → sc ≠ "" →
      getArg a "end_cell" Val.none = Val.none →
      (call_tool B "validate_excel_range" a).2 =
        [BCall.validateRange (get_excel_path s) (getArg a "sheet_name" (.str ""))
          (.str sc)]) := by
  constructor
  · intro B a s sc ec hs hsh hsc hscne hec hecne
    rw [call_tool_trace, dispatch_validate_excel_range]
    unfold handle_validate_excel_range
    rw [hs, hsc, hec]
    have hx : (Val.str sc).truthy = true := by simp [Val.truthy, hscne]
    have h1 : pyAll [.str (get_excel_path s), getArg a "sheet_name" (.str ""), .str sc] = true := by
      simp [pyAll, get_excel_path_truthy, hsh, hx]
    have h2 : (Val.str ec).truthy = true := by simp [Val.truthy, hecne]
    simp only [Val.asStrE, h1, h2, Bool.not_true, Bool.not_false, if_false, Val.pyStr]
    rcases hb : B.validate_range_impl (get_excel_path s) (getArg a "sheet_name" (.str ""))
        (.str (sc ++ ":" ++ ec)) with e | d
    · simp [hb, tryDomain, ok1, apply_ite]
    · rcases d with _ | m
      · simp [hb, getMsg, tryDomain, ok1, apply_ite]
      · simp [hb, getMsg, ok1]
  · intro B a s sc hs hsh hsc hscne hec
    rw [call_tool_trace, dispatch_validate_excel_range]
    unfold handle_validate_excel_range
    rw [hs, hsc, hec]
    have hx : (Val.str sc).truthy = true := by simp [Val.truthy, hscne]
    have h1 : pyAll [.str (get_excel_path s), getArg a "sheet_name" (.str ""), .str sc] = true := by
      simp [pyAll, get_excel_path_truthy, hsh, hx]
    simp only [Val.asStrE, h1, Val.truthy, Bool.not_true, Bool.not_false, if_false, if_true]
    rcases hb : B.validate_range_impl (get_excel_path s) (getArg a "sheet_name" (.str ""))
        (.str sc) with e | d
    · simp [hb, tryDomain, ok1, apply_ite]
    · rcases d with _ | m
      · simp [hb, getMsg, tryDomain, ok1, apply_ite]
      · simp [hb, getMsg, ok1]

/-- Witness for C6 at the spec's example cells A1 and B2. -/
theorem claim6_range_normalization_witness :
    (call_tool okBackend "validate_excel_range"
      [("filepath", .str "wb.xlsx"), ("sheet_name", .str "Sheet1"),
       ("start_cell", .str "A1"), ("end_cell", .str "B2")]).2 =
      [BCall.validateRange "./excel_files/wb.xlsx" (Val.str "Sheet1") (Val.str "A1:B2")] ∧
    (call_tool okBackend "validate_excel_range"
      [("filepath", .str "wb.xlsx"), ("sheet_name", .str "Sheet1"),
       ("start_cell", .str "A1")]).2 =
      [BCall.validateRange "./excel_files/wb.xlsx" (Val.str "Sheet1") (Val.str "A1")] := by
  constructor
  · rw [claim6_range_normalization.1 okBackend
      [("filepath", .str "wb.xlsx"), ("sheet_name", .str "Sheet1"),
       ("start_cell", .str "A1"), ("end_cell", .str "B2")]
      "wb.xlsx" "A1" "B2" rfl (by decide) rfl (by decide) rfl (by decide)]
    rfl
  · rw [claim6_range_normalization.2 okBackend
      [("filepath", .str "wb.xlsx"), ("sheet_name", .str "Sheet1"),
       ("start_cell", .str "A1")]
      "wb.xlsx" "A1" rfl (by decide) rfl (by decide) rfl]
    rfl

/-- C7: for `read_data_from_excel`, an empty backend read renders the fixed
"No data found in specified range" text, and a non-empty read renders the
rows' textual forms joined by newlines. -/
theorem claim7_read_data_rendering (B : Backend) (a : Args) (s : String)
    (rows : List String)
    (hs : getArg a "filepath" (.str "") = .str s)
    (hsh : (getArg a "sheet_name" (.str "")).truthy = true)
    (hb : B.read_excel_range (get_excel_path s) (getArg a "sheet_name" (.str ""))
      (getArg a "start_cell" (.str "A1")) (getArg a "end_cell" Val.none)
      (getArg a "preview_only" (.bool false)) = Except.ok rows) :
    (rows = [] → (call_tool B "read_data_from_excel" a).1 =
      [⟨"No data found in specified range"⟩]) ∧
    (rows ≠ [] → (call_tool B "read_data_from_excel" a).1 =
      [⟨String.intercalate "\n" rows⟩]) := by
  have hh : dispatch B "read_data_from_excel" a =
      ok1 (if rows.isEmpty then "No data found in specified range"
           else String.intercalate "\n" rows)
        [BCall.readExcelRange (get_excel_path s) (getArg a "sheet_name" (.str ""))
          (getArg a "start_cell" (.str "A1")) (getArg a "end_cell" Val.none)
          (getArg a "preview_only" (.bool false))] := by
    rw [dispatch_read_data_from_excel]
    unfold handle_read_data_from_excel
    rw [hs]
    have h1 : pyAll [.str (get_excel_path s), getArg a "sheet_name" (.str "")] = true := by
      simp [pyAll, get_excel_path_truthy, hsh]
    simp only [Val.asStrE, h1, Bool.not_true, if_false]
    rw [hb]
    rcases rows with _ | ⟨r, rs⟩ <;> simp [ok1]
  constructor
  · intro hrows
    rw [call_tool_ok B _ a _ _ hh]
    simp [hrows]
  · intro hrows
    rw [call_tool_ok B _ a _ _ hh]
    cases rows with
    | nil => exact absurd rfl hrows
    | cons r rs => simp

/-- Witness for C7: an empty read renders the fixed text, a one-row read
renders the row itself. -/
theorem claim7_read_data_rendering_witness :
    (call_tool { okBackend with read_excel_range := fun _ _ _ _ _ => Except.ok [] }
      "read_data_from_excel" (validArgs "read_data_from_excel")).1 =
      [⟨"No data found in specified range"⟩] ∧
    (call_tool okBackend "read_data_from_excel" (validArgs "read_data_from_excel")).1 =
      [⟨"row"⟩] := by
  constructor
  · exact (claim7_read_data_rendering
      { okBackend with read_excel_range := fun _ _ _ _ _ => Except.ok [] }
      (validArgs "read_data_from_excel") "wb.xlsx" [] rfl (by decide) rfl).1 rfl
  · rw [(claim7_read_data_rendering okBackend (validArgs "read_data_from_excel")
      "wb.xlsx" ["row"] rfl (by decide) rfl).2 (by decide)]
    rfl

/-- C8: optional arguments absent from the bag receive their tool-specific
defaults before the backend call: `write_headers` true, `agg_func` "mean",
`shift_direction` "up", `preview_only` false (observed in the argument slots
of the recorded backend invocation). -/
theorem claim8_optional_defaults :
    (∀ (B : Backend) (a : Args) (s : String),
      getArg a "filepath" (.str "") = .str s →
      (getArg a "sheet_name" (.str "")).truthy = true →
      (getArg a "data" (.list [])).truthy = true →
      a.lookup "write_headers" = Option.none →
      (call_tool B "write_data_to_excel" a).2 =
        [BCall.writeData (get_excel_path s) (getArg a "sheet_name" (.str ""))
          (getArg a "data" (.list [])) (getArg a "start_cell" (.str "A1")) (.bool true)]) ∧
    (∀ (B : Backend) (a : Args) (s : String),
      getArg a "filepath" (.str "") = .str s →
      (getArg a "sheet_name" (.str "")).truthy = true →
      (getArg a "data_range" (.str "")).truthy = true →
      (getArg a "rows" (.list [])).truthy = true →
      (getArg a "values" (.list [])).truthy = true →
      a.lookup "columns" = Option.none →
      a.lookup "agg_func" = Option.none →
      (call_tool B "create_pivot_table" a).2 =
        [BCall.createPivotTable (get_excel_path s) (getArg a "sheet_name" (.str ""))
          (getArg a "data_range" (.str "")) (getArg a "rows" (.list []))
          (getArg a "values" (.list [])) (.list []) (.str "mean")]) ∧
    (∀ (B : Backend) (a : Args) (s : String),
      getArg a "filepath" (.str "") = .str s →
      (getArg a "sheet_name" (.str "")).truthy = true →
      (getArg a "start_cell" (.str "")).truthy = true →
      (getArg a "end_cell" (.str "")).truthy = true →
      a.lookup "shift_direction" = Option.none →
      (call_tool B "delete_range" a).2 =
        [BCall.deleteRangeOperation (get_excel_path s) (getArg a "sheet_name" (.str ""))
          (getArg a "start_cell" (.str "")) (getArg a "end_cell" (.str "")) (.str "up")]) ∧
    (∀ (B : Backend) (a : Args) (s : String),
      getArg a "filepath" (.str "") = .str s →
      (getArg a "sheet_name" (.str "")).truthy = true →
      a.lookup "preview_only" = Option.none →
      (call_tool B "read_data_from_excel" a).2 =
        [BCall.readExcelRange (get_excel_path s) (getArg a "sheet_name" (.str ""))
          (getArg a "start_cell" (.str "A1")) (getArg a "end_cell" Val.none) (.bool false)]) := by
  refine ⟨?_, ?_, ?_, ?_⟩
  · intro B a s hs hsh hdata hwh
    rw [call_tool_trace, dispatch_write_data_to_excel]
    unfold handle_write_data_to_excel
    rw [hs, getArg_of_lookup_none a "write_headers" (.bool true) hwh]
    have h1 : pyAll [.str (get_excel_path s), getArg a "sheet_name" (.str ""),
        getArg a "data" (.list [])] = true := by
      simp [pyAll, get_excel_path_truthy, hsh, hdata]
    simp only [Val.asStrE, h1, Bool.not_true, if_false]
    rcases hb : B.write_data (get_excel_path s) (getArg a "sheet_name" (.str ""))
        (getArg a "data" (.list [])) (getArg a "start_cell" (.str "A1")) (.bool true) with e | d
    · simp [hb, tryDomain, ok1, apply_ite]
    · rcases d with _ | m
      · simp [hb, getMsg, tryDomain, ok1, apply_ite]
      · simp [hb, getMsg, ok1]
  · intro B a s hs hsh hdr hrows hvals hcols hagg
    rw [call_tool_trace, dispatch_create_pivot_table]
    unfold handle_create_pivot_table
    rw [hs, getArg_of_lookup_none a "columns" (.list []) hcols,
      getArg_of_lookup_none a "agg_func" (.str "mean") hagg]
    have h1 : pyAll [.str (get_excel_path s), getArg a "sheet_name" (.str ""),
        getArg a "data_range" (.str ""), getArg a "rows" (.list []),
        getArg a "values" (.list [])] = true := by
      simp [pyAll, get_excel_path_truthy, hsh, hdr, hrows, hvals]
    simp only [Val.asStrE, h1, Bool.not_true, if_false, Val.truthy, List.isEmpty_nil,
      Bool.not_false]
    rcases hb : B.create_pivot_table_impl (get_excel_path s) (getArg a "sheet_name" (.str ""))
        (getArg a "data_range" (.str "")) (getArg a "rows" (.list []))
        (getArg a "values" (.list [])) (.list []) (.str "mean") with e | d
    · simp [hb, tryDomain, ok1, apply_ite]
    · rcases d with _ | m
      · simp [hb, getMsg, tryDomain, ok1, apply_ite]
      · simp [hb, getMsg, ok1]
  · intro B a s hs hsh hsc hec hsd
    rw [call_tool_trace, dispatch_delete_range]
    unfold handle_delete_range
    rw [hs, getArg_of_lookup_none a "shift_direction" (.str "up") hsd]
    have h1 : pyAll [.str (get_excel_path s), getArg a "sheet_name" (.str ""),
        getArg a "start_cell" (.str ""), getArg a "end_cell" (.str "")] = true := by
      simp [pyAll, get_excel_path_truthy, hsh, hsc, hec]
    simp only [Val.asStrE, h1, Bool.not_true, if_false]
    rcases hb : B.delete_range_operation (get_excel_path s) (getArg a "sheet_name" (.str ""))
        (getArg a "start_cell" (.str "")) (getArg a "end_cell" (.str "")) (.str "up") with e | d
    · simp [hb, tryDomain, ok1, apply_ite]
    · rcases d with _ | m
      · simp [hb, getMsg, tryDomain, ok1, apply_ite]
      · simp [hb, getMsg, ok1]
  · intro B a s hs hsh hpv
    rw [call_tool_trace, dispatch_read_data_from_excel]
    unfold handle_read_data_from_excel
    rw [hs, getArg_of_lookup_none a "preview_only" (.bool false) hpv]
    have h1 : pyAll [.str (get_excel_path s), getArg a "sheet_name" (.str "")] = true := by
      simp [pyAll, get_excel_path_truthy, hsh]
    simp only [Val.asStrE, h1, Bool.not_true, if_false]
    rcases hb : B.read_excel_range (get_excel_path s) (getArg a "sheet_name" (.str ""))
        (getArg a "start_cell" (.str "A1")) (getArg a "end_cell" Val.none) (.bool false) with e | d
    · simp [hb, ok1]
    · simp [hb, ok1, apply_ite]

/-- Witness for C8 at concrete bags lacking each optional key. -/
theorem claim8_optional_defaults_witness :
    (call_tool okBackend "write_data_to_excel" (validArgs "write_data_to_excel")).2 =
      [BCall.writeData "./excel_files/wb.xlsx" (Val.str "Sheet1") (Val.list [Val.str "x"])
        (Val.str "A1") (Val.bool true)] ∧
    (call_tool okBackend "create_pivot_table" (validArgs "create_pivot_table")).2 =
      [BCall.createPivotTable "./excel_files/wb.xlsx" (Val.str "Sheet1") (Val.str "A1:B2")
        (Val.list [Val.str "a"]) (Val.list [Val.str "b"]) (Val.list []) (Val.str "mean")] ∧
    (call_tool okBackend "delete_range" (validArgs "delete_range")).2 =
      [BCall.deleteRangeOperation "./excel_files/wb.xlsx" (Val.str "Sheet1") (Val.str "A1")
        (Val.str "B2") (Val.str "up")] ∧
    (call_tool okBackend "read_data_from_excel" (validArgs "read_data_from_excel")).2 =
      [BCall.readExcelRange "./excel_files/wb.xlsx" (Val.str "Sheet1") (Val.str "A1")
        Val.none (Val.bool false)] := by
  refine ⟨?_, ?_, ?_, ?_⟩
  · rw [claim8_optional_defaults.1 okBackend (validArgs "write_data_to_excel") "wb.xlsx"
      rfl (by decide) (by decide) rfl]
    rfl
  · rw [claim8_optional_defaults.2.1 okBackend (validArgs "create_pivot_table") "wb.xlsx"
      rfl (by decide) (by decide) (by decide) (by decide) rfl rfl]
    rfl
  · rw [claim8_optional_defaults.2.2.1 okBackend (validArgs "delete_range") "wb.xlsx"
      rfl (by decide) (by decide) (by decide) rfl]
    rfl
  · rw [claim8_optional_defaults.2.2.2 okBackend (validArgs "read_data_from_excel") "wb.xlsx"
      rfl (by decide) rfl]
    rfl

/-- C9: `read_resource` on an `excel://` URI whose decoded, resolved file
does not exist returns "Error: File not found: " plus the decoded filename,
without raising; and when the bounded metadata fetch times out (the
15-second `asyncio.wait_for` bound elapsing, modelled as the `timedOut`
oracle outcome) it returns the fixed timeout message. -/
theorem claim9_read_resource_errors :
    (∀ (env : ResourceEnv) (uri : String),
      strStartsWith uri "excel://" = true →
      env.path_exists (get_excel_path (unquote (String.mk (uri.data.drop 8)))) = false →
      read_resource env uri =
        "Error: File not found: " ++ unquote (String.mk (uri.data.drop 8))) ∧
    (∀ (env : ResourceEnv) (uri : String),
      strStartsWith uri "excel://" = true →
      env.path_exists (get_excel_path (unquote (String.mk (uri.data.drop 8)))) = true →
      env.fetch_info (get_excel_path (unquote (String.mk (uri.data.drop 8)))) =
        FetchOutcome.timedOut →
      read_resource env uri = "Error: Operation timed out while reading Excel file") := by
  constructor
  · intro env uri hu hex
    unfold read_resource
    simp [hu, hex]
  · intro env uri hu hex hf
    unfold read_resource
    simp [hu, hex, hf]

/-- Witness for C9: a missing file and a timed-out fetch, at concrete URIs. -/
theorem claim9_read_resource_errors_witness :
    read_resource ⟨fun _ => false, fun _ => FetchOutcome.timedOut⟩ "excel://missing.xlsx" =
      "Error: File not found: missing.xlsx" ∧
    read_resource ⟨fun _ => true, fun _ => FetchOutcome.timedOut⟩ "excel://wb.xlsx" =
      "Error: Operation timed out while reading Excel file" := by
  constructor
  · rw [claim9_read_resource_errors.1 ⟨fun _ => false, fun _ => FetchOutcome.timedOut⟩
      "excel://missing.xlsx" (by decide) rfl]
    rfl
  · exact claim9_read_resource_errors.2 ⟨fun _ => true, fun _ => FetchOutcome.timedOut⟩
      "excel://wb.xlsx" (by decide) rfl rfl

end ExcelMCP
